import Mathlib

/-! Redbricks: the per-frame simulation of `src/games/redbricks/game.js`.

A shallow embedding of the `Game` class (level loading, the per-frame `update`,
`getBallCollision` and the two input handlers) together with theorems about it.

Numbers.  A JavaScript number is modelled by `JSNum`: an exact rational, or one of
the three non-finite values `Infinity`, `-Infinity` and `NaN`.  Rounding is not
modelled and there is a single zero (the code never divides by a negative zero:
its divisors are `1000`, `2`, `ball_speed`, `dt` and `numBricks.x`).

Identity.  A JavaScript object reference is modelled by the value of the entity
together with the `id` it received when it was created: two references are equal
exactly when the entities are equal as values.
-/

namespace Redbricks

/-! ## Numbers -/

/-- A JavaScript number: a finite value, `Infinity`, `-Infinity` or `NaN`. -/
inductive JSNum where
  | fin (q : ℚ)
  | posInf
  | negInf
  | nan
  deriving DecidableEq

namespace JSNum

/-- Unary minus. -/
def neg : JSNum → JSNum
  | fin a => fin (-a)
  | posInf => negInf
  | negInf => posInf
  | nan => nan

/-- The operator `+` on numbers. -/
def add : JSNum → JSNum → JSNum
  | fin a, fin b => fin (a + b)
  | nan, _ => nan
  | _, nan => nan
  | posInf, negInf => nan
  | negInf, posInf => nan
  | posInf, _ => posInf
  | _, posInf => posInf
  | negInf, _ => negInf
  | _, negInf => negInf

/-- The operator `-` on numbers. -/
def sub (a b : JSNum) : JSNum := add a (neg b)

/-- The operator `*` on numbers. -/
def mul : JSNum → JSNum → JSNum
  | fin a, fin b => fin (a * b)
  | nan, _ => nan
  | _, nan => nan
  | posInf, fin b => if b = 0 then nan else if 0 < b then posInf else negInf
  | negInf, fin b => if b = 0 then nan else if 0 < b then negInf else posInf
  | fin a, posInf => if a = 0 then nan else if 0 < a then posInf else negInf
  | fin a, negInf => if a = 0 then nan else if 0 < a then negInf else posInf
  | posInf, posInf => posInf
  | negInf, negInf => posInf
  | posInf, negInf => negInf
  | negInf, posInf => negInf

/-- The operator `/` on numbers; a zero divisor gives `Infinity`, `-Infinity` or `NaN`. -/
def div : JSNum → JSNum → JSNum
  | fin a, fin b =>
      if b = 0 then (if a = 0 then nan else if 0 < a then posInf else negInf)
      else fin (a / b)
  | nan, _ => nan
  | _, nan => nan
  | fin _, posInf => fin 0
  | fin _, negInf => fin 0
  | posInf, fin b => if 0 ≤ b then posInf else negInf
  | negInf, fin b => if 0 ≤ b then negInf else posInf
  | posInf, posInf => nan
  | posInf, negInf => nan
  | negInf, posInf => nan
  | negInf, negInf => nan

/-- The comparison `a < b`; false as soon as one side is `NaN`. -/
def lt : JSNum → JSNum → Bool
  | fin a, fin b => decide (a < b)
  | nan, _ => false
  | _, nan => false
  | negInf, negInf => false
  | negInf, _ => true
  | _, negInf => false
  | posInf, _ => false
  | _, posInf => true

/-- The comparison `a <= b`; false as soon as one side is `NaN`. -/
def le : JSNum → JSNum → Bool
  | fin a, fin b => decide (a ≤ b)
  | nan, _ => false
  | _, nan => false
  | negInf, _ => true
  | _, posInf => true
  | posInf, _ => false
  | _, negInf => false

/-- The function `Math.max` on two numbers: `NaN` as soon as one argument is. -/
def max : JSNum → JSNum → JSNum
  | nan, _ => nan
  | _, nan => nan
  | a, b => if lt a b then b else a

/-- The function `Math.min` on two numbers: `NaN` as soon as one argument is. -/
def min : JSNum → JSNum → JSNum
  | nan, _ => nan
  | _, nan => nan
  | a, b => if lt b a then b else a

instance : Neg JSNum := ⟨neg⟩
instance : Add JSNum := ⟨add⟩
instance : Sub JSNum := ⟨sub⟩
instance : Mul JSNum := ⟨mul⟩
instance : Div JSNum := ⟨div⟩
instance : Coe ℚ JSNum := ⟨fin⟩

end JSNum

/-- The value a missing (`undefined`) operand takes in arithmetic is `NaN`. -/
def toNumber : Option JSNum → JSNum
  | some a => a
  | none => JSNum.nan

/-! ## Geometry (`lib/Point.js`, `lib/Rect.js`) -/

/-- Modelled from the spec: `lib/Point.js` is not among the sources.  A point is a
pair of numbers with component-wise arithmetic (§3, §4.1). -/
structure Point where
  x : JSNum
  y : JSNum
  deriving DecidableEq

namespace Point

/-- Modelled from the spec: component-wise `add` of `lib/Point.js`. -/
def add (p q : Point) : Point := ⟨p.x + q.x, p.y + q.y⟩

/-- Modelled from the spec: component-wise `sub` of `lib/Point.js`. -/
def sub (p q : Point) : Point := ⟨p.x - q.x, p.y - q.y⟩

/-- Modelled from the spec: component-wise `mul` of `lib/Point.js`. -/
def mul (p q : Point) : Point := ⟨p.x * q.x, p.y * q.y⟩

/-- Modelled from the spec: component-wise `div` of `lib/Point.js`. -/
def div (p q : Point) : Point := ⟨p.x / q.x, p.y / q.y⟩

/-- Modelled from the spec: `new Point(s)` with a single argument, the scalar `s`
applied uniformly to both axes (§4.1 "mul/div(vector|scalar)", §4.4 step c). -/
def scalar (s : JSNum) : Point := ⟨s, s⟩

end Point

/-- Modelled from the spec: `lib/Rect.js` is not among the sources.  An axis-aligned
box given by its origin and its size (§3). -/
structure Rect where
  origin : Point
  size : Point
  deriving DecidableEq

namespace Rect

/-- Modelled from the spec: `Rect.centered(center, size)` has origin
`center - size/2` (§4.1). -/
def centered (center size : Point) : Rect :=
  ⟨center.sub (size.div (Point.scalar (JSNum.fin 2))), size⟩

/-- Modelled from the spec: `within(outer)`, all four corners inside the closed
bounds of `outer` (§4.1). -/
def within (r outer : Rect) : Bool :=
  JSNum.le outer.origin.x r.origin.x
    && JSNum.le (r.origin.x + r.size.x) (outer.origin.x + outer.size.x)
    && JSNum.le outer.origin.y r.origin.y
    && JSNum.le (r.origin.y + r.size.y) (outer.origin.y + outer.size.y)

/-- Modelled from the spec: `overlaps(other)`, the intervals on both axes overlap
with positive length (§4.1). -/
def overlaps (r other : Rect) : Bool :=
  JSNum.lt r.origin.x (other.origin.x + other.size.x)
    && JSNum.lt other.origin.x (r.origin.x + r.size.x)
    && JSNum.lt r.origin.y (other.origin.y + other.size.y)
    && JSNum.lt other.origin.y (r.origin.y + r.size.y)

end Rect

/-! ## Entities and the playfield (`Playfield.js`) -/

/-- Modelled from the spec: the entity class of `Playfield.js` is not among the
sources.  A paddle, ball or brick: its position is its centre; `velocity` defaults
to the zero vector; `kind` is present on bricks only (§3, §4.2).  The field `id`
stands for the identity of the object. -/
structure Entity where
  id : Nat
  position : Point
  size : Point
  velocity : Point
  kind : Option String
  deriving DecidableEq

namespace Entity

/-- Modelled from the spec: the derived bounding rectangle `centered(position, size)`. -/
def rect (e : Entity) : Rect := Rect.centered e.position e.size

/-- Modelled from the spec: the accessor `x`, the horizontal coordinate of the centre. -/
def x (e : Entity) : JSNum := e.position.x

/-- Modelled from the spec: assignment to the accessor `x`; the vertical position is
fixed (§4.5). -/
def setX (e : Entity) (v : JSNum) : Entity := { e with position := ⟨v, e.position.y⟩ }

end Entity

/-- Modelled from the spec: the argument of `addEntity` (size, position, optional kind). -/
structure EntitySpec where
  size : Point
  position : Point
  kind : Option String := none

/-- Modelled from the spec: the one requirement `addEntity` puts on its argument,
positive size components (§4.2). -/
def EntitySpec.positiveSize (s : EntitySpec) : Bool :=
  JSNum.lt (JSNum.fin 0) s.size.x && JSNum.lt (JSNum.fin 0) s.size.y

/-- Modelled from the spec: `Playfield.js` is not among the sources.  The play area
(origin at zero, size = game dimensions) and the registry of live entities, held as
the insertion-ordered list of their identities (§3, §4.2). -/
structure Playfield where
  size : Point
  entities : List Nat
  nextId : Nat
  deriving DecidableEq

namespace Playfield

/-- Modelled from the spec: `new Playfield(name, gameSize)`, with an empty registry. -/
def create (gameSize : Point) : Playfield := ⟨gameSize, [], 0⟩

/-- Modelled from the spec: the bounding rectangle of the play area. -/
def rect (p : Playfield) : Rect := ⟨⟨JSNum.fin 0, JSNum.fin 0⟩, p.size⟩

/-- Modelled from the spec: `addEntity(spec)` builds the entity, registers it and
returns it with the updated playfield.  The spec requires positive size components
(`EntitySpec.positiveSize`) and does not say what a call that breaks the requirement
does: this is the result of a call that meets it, and a property of the bricks a level is
built from is stated for brick sizes that meet it. -/
def addEntity (p : Playfield) (s : EntitySpec) : Entity × Playfield :=
  (⟨p.nextId, s.position, s.size, ⟨JSNum.fin 0, JSNum.fin 0⟩, s.kind⟩,
   { p with entities := p.entities ++ [p.nextId], nextId := p.nextId + 1 })

/-- Modelled from the spec: `removeEntity(entity)` removes by identity; removing an
entity that is not registered changes nothing. -/
def removeEntity (p : Playfield) (e : Entity) : Playfield :=
  { p with entities := p.entities.filter (fun i => i != e.id) }

end Playfield

/-- Modelled from the spec: what `brickPattern(level)` of `brickpattern.js` returns,
the grid dimensions and the kind of each cell (§4.3, §6). -/
structure Pattern where
  numBricks : Nat × Nat
  getBrickKind : Nat → Nat → String

/-! ## The game (`game.js`) -/

/-- The result object of `getBallCollision`: `{}`, `{kind}` or `{kind, entity}`. -/
structure Collision where
  kind : Option String := none
  entity : Option Entity := none
  deriving DecidableEq

/-- The fields of a `Game` object.  `level` and `lastTime` are `none` while they are
`undefined`; `dt`, `paddle_xvel` and `last_paddle_x` are only read in arithmetic, where
`undefined` acts as `NaN`. -/
structure Game where
  playfield : Playfield
  gameSize : Point
  running : Bool
  level : Option Int
  ball_speed : JSNum
  gravity : JSNum
  max_ball_speed : JSNum
  paddle : Entity
  ball : Entity
  ball_stuck : Bool
  bricks : List Entity
  lastTime : Option JSNum
  dt : JSNum
  paddle_xvel : JSNum
  last_paddle_x : JSNum

namespace Game

/-- The loop of `getBallCollision` (lines 166-170): the first brick, in list order,
whose rectangle overlaps the ball rectangle. -/
def scanBricks (ball_rect : Rect) : List Entity → Collision
  | [] => {}
  | brick :: rest =>
      if ball_rect.overlaps brick.rect then { kind := some "brick", entity := some brick }
      else scanBricks ball_rect rest

/-- The method `getBallCollision(pos)` (lines 159-173). -/
def getBallCollision (g : Game) (pos : Point) : Collision :=
  let ball_rect := Rect.centered pos g.ball.size
  if !ball_rect.within g.playfield.rect then { kind := some "viewport" }
  else if ball_rect.overlaps g.paddle.rect then { kind := some "paddle" }
  else scanBricks ball_rect g.bricks

/-- The closure `next_ball_pos` of `update` (lines 124-128); it reads the ball's
position and velocity at the moment it is called. -/
def next_ball_pos (g : Game) (dt : JSNum) : Point :=
  g.ball.position.add (g.ball.velocity.mul (Point.scalar (dt * g.ball_speed)))

/-- Lines 118-122 of `update`: clamp the horizontal velocity, add gravity to the
vertical velocity. -/
def clampAndGravity (g : Game) (dt : JSNum) : Game :=
  { g with ball := { g.ball with velocity :=
      ⟨JSNum.min g.max_ball_speed (JSNum.max (-g.max_ball_speed) g.ball.velocity.x),
       g.ball.velocity.y + g.gravity * dt⟩ } }

/-- The statement `this.ball.velocity.y *= -1`. -/
def flipY (g : Game) : Game :=
  { g with ball := { g.ball with velocity :=
      ⟨g.ball.velocity.x, g.ball.velocity.y * JSNum.fin (-1)⟩ } }

/-- The statement `this.ball.velocity.x *= -1`. -/
def flipX (g : Game) : Game :=
  { g with ball := { g.ball with velocity :=
      ⟨g.ball.velocity.x * JSNum.fin (-1), g.ball.velocity.y⟩ } }

/-- Lines 118-136 of `update`: velocity integration, then the Y-test and the X-test.
Returns the game with `collision_x` and `collision_y`. -/
def resolveAxes (g : Game) (dt : JSNum) : Game × Collision × Collision :=
  let g := clampAndGravity g dt
  let test_y : Point := ⟨g.ball.position.x, (next_ball_pos g dt).y⟩
  let collision_y := getBallCollision g test_y
  let g := if collision_y.kind.isSome then flipY g else g
  let test_x : Point := ⟨(next_ball_pos g dt).x, g.ball.position.y⟩
  let collision_x := getBallCollision g test_x
  let g := if collision_x.kind.isSome then flipX g else g
  (g, collision_x, collision_y)

/-- Lines 138-143 of `update`: the paddle's spin transfer and the fixed push. -/
def paddlePush (g : Game) (collision_y : Collision) : Game :=
  if collision_y.kind = some "paddle" then
    let vx := g.ball.velocity.x + g.paddle_xvel / JSNum.fin 2
    let vx := vx + (if JSNum.lt g.ball.position.x g.paddle.position.x
                    then JSNum.fin (-10) else JSNum.fin 10)
    { g with ball := { g.ball with velocity := ⟨vx, g.ball.velocity.y⟩ } }
  else g

/-- The body of the `forEach` callback of lines 145-150, for one collision result. -/
def removeStruck (g : Game) (c : Collision) : Game :=
  if c.kind = some "brick" then
    match c.entity with
    | some entity =>
        if entity.kind ≠ some "solid" then
          { g with playfield := g.playfield.removeEntity entity,
                   bricks := g.bricks.filter (fun brick => brick != entity) }
        else g
    | none => g
  else g

/-- The `else` branch of `update` (lines 118-152), for a launched ball. -/
def launchedStep (g : Game) (dt : JSNum) : Game :=
  let (g, collision_x, collision_y) := resolveAxes g dt
  let g := paddlePush g collision_y
  let g := [collision_x, collision_y].foldl removeStruck g
  { g with ball := { g.ball with position := next_ball_pos g dt } }

/-- The operator `??` on an optional number. -/
def nullish (a b : Option JSNum) : Option JSNum :=
  match a with
  | some v => some v
  | none => b

/-- The value of `dt` computed on line 110 of `update`. -/
def frameDt (g : Game) (newtime : Option JSNum) : JSNum :=
  (toNumber newtime - toNumber (nullish g.lastTime newtime)) / JSNum.fin 1000

/-- Lines 110-112 of `update`: store `dt` and the new timestamp. -/
def tick (g : Game) (newtime : Option JSNum) : Game :=
  { g with dt := frameDt g newtime, lastTime := newtime }

/-- The method `update(newtime)` (lines 109-157).  `newtime` is `none` when the
method is called without an argument, as `beginPlay` does. -/
def update (g : Game) (newtime : Option JSNum) : Game :=
  let dt := frameDt g newtime
  let g := tick g newtime
  let g :=
    if g.ball_stuck then
      { g with ball := { g.ball with
          position := g.paddle.position.add ⟨JSNum.fin 0, JSNum.fin (-10)⟩ } }
    else launchedStep g dt
  { g with paddle_xvel := (g.paddle.x - g.last_paddle_x) / dt,
           last_paddle_x := g.paddle.x }

/-- The method `keydown()` (lines 175-184); `random` is the value `Math.random()`
returns. -/
def keydown (g : Game) (random : JSNum) : Game :=
  if g.ball_stuck then
    let jitter := if JSNum.lt random (JSNum.fin (1/2)) then JSNum.fin (-10) else JSNum.fin 10
    { g with ball_stuck := false,
             ball := { g.ball with velocity :=
               ⟨g.paddle_xvel / g.ball_speed + jitter, JSNum.fin (-200)⟩ } }
  else g

/-- The method `mousemove(mousePos)` (lines 186-190). -/
def mousemove (g : Game) (mousePos : Point) : Game :=
  let pwidth := g.paddle.size.x
  let x := JSNum.max (pwidth / JSNum.fin 2)
    (JSNum.min mousePos.x (g.gameSize.x - pwidth / JSNum.fin 2))
  { g with paddle := g.paddle.setX x }

/-- The constructor `new Game(playfield, gameSize)` (lines 17-21).  The fields it does
not assign are `undefined`: `level` and `lastTime` are `none`, the numbers are `NaN`,
and `paddle` and `ball` hold a placeholder that `loadLevel` replaces before any
method reads them. -/
def create (playfield : Playfield) (gameSize : Point) : Game :=
  let undefinedEntity : Entity :=
    ⟨0, ⟨JSNum.nan, JSNum.nan⟩, ⟨JSNum.nan, JSNum.nan⟩, ⟨JSNum.nan, JSNum.nan⟩, none⟩
  { playfield := playfield, gameSize := gameSize, running := false, level := none,
    ball_speed := JSNum.nan, gravity := JSNum.nan, max_ball_speed := JSNum.nan,
    paddle := undefinedEntity, ball := undefinedEntity, ball_stuck := false,
    bricks := [], lastTime := none, dt := JSNum.nan, paddle_xvel := JSNum.nan,
    last_paddle_x := JSNum.nan }

/-- The body of the inner loop of `loadLevel` (lines 65-86) for the cell `(ix, iy)`:
an `empty` cell is skipped, any other cell adds a brick to the playfield and pushes
it onto the bricks collection. -/
def addBrick (brick_spacing brick_size brick_gap : Point) (brick_offset : JSNum)
    (getBrickKind : Nat → Nat → String) (iy ix : Nat)
    (acc : Playfield × List Entity) : Playfield × List Entity :=
  let kind := getBrickKind ix iy
  if kind = "empty" then acc
  else
    let (brick, playfield) := acc.1.addEntity
      { size := brick_size,
        position :=
          (((brick_spacing.mul ⟨JSNum.fin ix, JSNum.fin iy⟩).add brick_gap).add
            ⟨JSNum.fin 0, brick_offset⟩).add
            (brick_spacing.div ⟨JSNum.fin 2, JSNum.fin 2⟩),
        kind := some kind }
    (playfield, acc.2 ++ [brick])

/-- The two nested loops of `loadLevel` (lines 63-88): `iy` outer, `ix` inner. -/
def buildBricks (brick_spacing brick_size brick_gap : Point) (brick_offset : JSNum)
    (pattern : Pattern) (playfield : Playfield) : Playfield × List Entity :=
  (List.range pattern.numBricks.2).foldl
    (fun acc iy =>
      (List.range pattern.numBricks.1).foldl
        (fun acc ix =>
          addBrick brick_spacing brick_size brick_gap brick_offset pattern.getBrickKind
            iy ix acc)
        acc)
    (playfield, [])

/-- The method `loadLevel(level)` (lines 23-89); `brickPattern` is the pattern source
imported from `brickpattern.js`. -/
def loadLevel (brickPattern : Int → Pattern) (g : Game) (level : Int) : Game :=
  let brick_height := JSNum.fin 12
  let brick_offset := JSNum.fin 10
  let brick_gap : Point := ⟨JSNum.fin 3, JSNum.fin 3⟩
  let (paddle, playfield) := g.playfield.addEntity
    { size := ⟨JSNum.fin 32, JSNum.fin 8⟩,
      position := g.gameSize.sub ⟨g.gameSize.x / JSNum.fin 2, JSNum.fin 16⟩ }
  let (ball, playfield) := playfield.addEntity
    { size := ⟨JSNum.fin 8, JSNum.fin 8⟩,
      position := g.gameSize.sub ⟨JSNum.fin 0, paddle.position.y - JSNum.fin 2⟩ }
  let pattern := brickPattern level
  let brick_spacing : Point :=
    ⟨(g.gameSize.x - brick_gap.x * JSNum.fin 2) / JSNum.fin pattern.numBricks.1,
     brick_height + brick_gap.y⟩
  let brick_size : Point := ⟨brick_spacing.x - brick_gap.x, brick_height⟩
  let (playfield, bricks) :=
    buildBricks brick_spacing brick_size brick_gap brick_offset pattern playfield
  { g with
    playfield := playfield, running := false, level := some level,
    ball_speed := JSNum.fin (6/5), gravity := JSNum.fin 100,
    max_ball_speed := JSNum.fin 300,
    paddle := paddle, ball := ball, ball_stuck := true, bricks := bricks }

/-- One call made by the frame driver or by the input source. -/
inductive Event where
  | update (newtime : Option JSNum)
  | keydown (random : JSNum)
  | mousemove (mousePos : Point)

/-- The effect of one event on the game. -/
def step (g : Game) : Event → Game
  | .update newtime => g.update newtime
  | .keydown random => g.keydown random
  | .mousemove mousePos => g.mousemove mousePos

/-- The effect of a sequence of events, in order. -/
def run (g : Game) (events : List Event) : Game := events.foldl step g

/-! ### The notions the properties of `update` are stated with

Each is a function of the state before the update and of the elapsed time `dt`. -/

/-- The horizontal velocity after the clamp of lines 118-121. -/
def clampedVx (g : Game) : JSNum :=
  JSNum.min g.max_ball_speed (JSNum.max (-g.max_ball_speed) g.ball.velocity.x)

/-- The vertical velocity after gravity has been added (line 122). -/
def gravityVy (g : Game) (dt : JSNum) : JSNum := g.ball.velocity.y + g.gravity * dt

/-- The candidate next position: the position before the update plus the velocity
after clamp and gravity, multiplied by `dt * ball_speed` on both axes. -/
def candidate (g : Game) (dt : JSNum) : Point :=
  ⟨g.ball.position.x + clampedVx g * (dt * g.ball_speed),
   g.ball.position.y + gravityVy g dt * (dt * g.ball_speed)⟩

/-- The Y-test: `getBallCollision` at (current x, candidate y). -/
def collisionY (g : Game) (dt : JSNum) : Collision :=
  g.getBallCollision ⟨g.ball.position.x, (candidate g dt).y⟩

/-- The X-test: `getBallCollision` at (candidate x, current y). -/
def collisionX (g : Game) (dt : JSNum) : Collision :=
  g.getBallCollision ⟨(candidate g dt).x, g.ball.position.y⟩

/-- A collision result strikes the brick `b` destructively: its kind is "brick", its
entity is `b`, and `b` is not solid. -/
def destroys (c : Collision) (b : Entity) : Prop :=
  c.kind = some "brick" ∧ c.entity = some b ∧ b.kind ≠ some "solid"

instance (c : Collision) (b : Entity) : Decidable (destroys c b) := by
  unfold destroys; infer_instance

/-- The reading of `clamp(v, lo, hi)`: `lo` below `lo`, `hi` above `hi`, `v` otherwise. -/
def specClamp (v lo hi : JSNum) : JSNum :=
  if JSNum.lt v lo then lo else if JSNum.lt hi v then hi else v

end Game

/-! ## A concrete game state

A launched ball low in a 240x240 field, the paddle in the bottom-left corner, two
bricks of the top row and one stray brick next to the paddle. -/

/-- The sample paddle: 32x8, centred at `(16, 224)`. -/
def samplePaddle : Entity :=
  ⟨0, ⟨JSNum.fin 16, JSNum.fin 224⟩, ⟨JSNum.fin 32, JSNum.fin 8⟩,
    ⟨JSNum.fin 0, JSNum.fin 0⟩, none⟩

/-- The sample ball: 8x8, centred at `(50, 230)`, falling at 100 units per second. -/
def sampleBall : Entity :=
  ⟨1, ⟨JSNum.fin 50, JSNum.fin 230⟩, ⟨JSNum.fin 8, JSNum.fin 8⟩,
    ⟨JSNum.fin 0, JSNum.fin 100⟩, none⟩

/-- A solid brick of the top row, centred at `(26.4, 20.5)`. -/
def sampleSolid : Entity :=
  ⟨2, ⟨JSNum.fin (132/5), JSNum.fin (41/2)⟩, ⟨JSNum.fin (219/5), JSNum.fin 12⟩,
    ⟨JSNum.fin 0, JSNum.fin 0⟩, some "solid"⟩

/-- A normal brick of the top row, centred at `(73.2, 20.5)`. -/
def sampleNormal : Entity :=
  ⟨3, ⟨JSNum.fin (366/5), JSNum.fin (41/2)⟩, ⟨JSNum.fin (219/5), JSNum.fin 12⟩,
    ⟨JSNum.fin 0, JSNum.fin 0⟩, some "normal"⟩

/-- A normal brick just above the paddle, centred at `(40, 215)`. -/
def sampleStray : Entity :=
  ⟨4, ⟨JSNum.fin 40, JSNum.fin 215⟩, ⟨JSNum.fin (219/5), JSNum.fin 12⟩,
    ⟨JSNum.fin 0, JSNum.fin 0⟩, some "normal"⟩

/-- The sample game: launched, last frame at time 0. -/
def sampleGame : Game :=
  { playfield := ⟨⟨JSNum.fin 240, JSNum.fin 240⟩, [0, 1, 2, 3, 4], 5⟩,
    gameSize := ⟨JSNum.fin 240, JSNum.fin 240⟩,
    running := true, level := some 2,
    ball_speed := JSNum.fin (6/5), gravity := JSNum.fin 100,
    max_ball_speed := JSNum.fin 300,
    paddle := samplePaddle, ball := sampleBall, ball_stuck := false,
    bricks := [sampleSolid, sampleNormal, sampleStray],
    lastTime := some (JSNum.fin 0), dt := JSNum.fin 0,
    paddle_xvel := JSNum.fin 0, last_paddle_x := JSNum.fin 16 }

/-- The sample game with the ball just below the normal brick of the top row, rising
at 100 units per second. -/
def sampleStrike : Game :=
  { sampleGame with ball := { sampleBall with
      position := ⟨JSNum.fin (366/5), JSNum.fin 32⟩,
      velocity := ⟨JSNum.fin 0, JSNum.fin (-100)⟩ } }

/-- The sample game with the ball at `(120, 200)` and velocity `(50, -200)`. -/
def sampleLaunch : Game :=
  { sampleGame with ball := { sampleBall with
      position := ⟨JSNum.fin 120, JSNum.fin 200⟩,
      velocity := ⟨JSNum.fin 50, JSNum.fin (-200)⟩ } }

/-- The sample game with the ball at `(10, 214)`, falling onto the left half of the
paddle, and a paddle velocity estimate of 40. -/
def samplePaddleHit : Game :=
  { sampleGame with
    ball := { sampleBall with position := ⟨JSNum.fin 10, JSNum.fin 214⟩ },
    paddle_xvel := JSNum.fin 40 }

/-- A pattern source: a 5x2 grid, solid top row, normal bottom row, column 1 empty. -/
def samplePattern : Int → Pattern := fun _ =>
  ⟨(5, 2), fun ix iy => if ix = 1 then "empty" else if iy = 0 then "solid" else "normal"⟩

/-- A game constructed on a 240x240 playfield, before any level is loaded. -/
def sampleFresh : Game :=
  Game.create (Playfield.create ⟨JSNum.fin 240, JSNum.fin 240⟩) ⟨JSNum.fin 240, JSNum.fin 240⟩

/-! ## Starting play and the level grid -/

namespace Game

/-- The method `beginPlay()` (lines 91-102): set `running`, raise when `this.level` is
falsy (`undefined` or `0`), otherwise run the first, argument-less `update()`.  The
later frames and the two input handlers it binds are the events of `run`. -/
def beginPlay (g : Game) : Except String Game :=
  let g := { g with running := true }
  if g.level = none ∨ g.level = some 0 then
    Except.error "attempt to start game without loading level!"
  else
    Except.ok (g.update none)

/-- The constant `brick_spacing` of `loadLevel` (lines 54-57). -/
def brickSpacing (g : Game) (pattern : Pattern) : Point :=
  ⟨(g.gameSize.x - JSNum.fin 3 * JSNum.fin 2) / JSNum.fin pattern.numBricks.1,
   JSNum.fin 12 + JSNum.fin 3⟩

/-- The constant `brick_size` of `loadLevel` (lines 58-60). -/
def brickSize (g : Game) (pattern : Pattern) : Point :=
  ⟨(brickSpacing g pattern).x - JSNum.fin 3, JSNum.fin 12⟩

/-- The divisors of the divisions `loadLevel` evaluates, in order: `2` on line 40,
`numBricks.x` on line 55 and, for each brick created, the two components of
`new Point(2,2)` on line 75. -/
def loadLevelDivisors (brickPattern : Int → Pattern) (g : Game) (level : Int) : List JSNum :=
  [JSNum.fin 2, JSNum.fin (brickPattern level).numBricks.1] ++
    List.replicate (2 * (loadLevel brickPattern g level).bricks.length) (JSNum.fin 2)

/-- The entity `addBrick` creates for a non-empty cell `(ix, iy)` when the playfield
hands out the identity `id` (lines 69-77). -/
def codeBrick (brick_spacing brick_size brick_gap : Point) (brick_offset : JSNum)
    (kind : String) (id ix iy : Nat) : Entity :=
  { id := id,
    position :=
      (((brick_spacing.mul ⟨JSNum.fin ix, JSNum.fin iy⟩).add brick_gap).add
        ⟨JSNum.fin 0, brick_offset⟩).add
        (brick_spacing.div ⟨JSNum.fin 2, JSNum.fin 2⟩),
    size := brick_size,
    velocity := ⟨JSNum.fin 0, JSNum.fin 0⟩,
    kind := some kind }

/-- The cells of an `nx` by `ny` grid in row-major order: `iy` outer, `ix` inner. -/
def cells (nx ny : Nat) : List (Nat × Nat) :=
  (List.range ny).flatMap (fun iy => (List.range nx).map (fun ix => (ix, iy)))

/-- The brick the level builder is said to create for the cell `(ix, iy)` of a grid
with `nx` columns on a field of width `W`, written with the operators of the code's
arithmetic: horizontal spacing `(W - 2*3)/nx`, vertical spacing `12 + 3`, size
`(spacing.x - 3, 12)` and centre
`(ix*spacing.x + 3 + spacing.x/2, iy*spacing.y + 3 + 10 + spacing.y/2)`. -/
def cellBrick (W : JSNum) (nx : Nat) (kind : String) (id ix iy : Nat) : Entity :=
  { id := id,
    position :=
      ⟨JSNum.fin ix * ((W - JSNum.fin 2 * JSNum.fin 3) / JSNum.fin nx) + JSNum.fin 3
          + (W - JSNum.fin 2 * JSNum.fin 3) / JSNum.fin nx / JSNum.fin 2,
       JSNum.fin iy * (JSNum.fin 12 + JSNum.fin 3) + JSNum.fin 3 + JSNum.fin 10
          + (JSNum.fin 12 + JSNum.fin 3) / JSNum.fin 2⟩,
    size := ⟨(W - JSNum.fin 2 * JSNum.fin 3) / JSNum.fin nx - JSNum.fin 3, JSNum.fin 12⟩,
    velocity := ⟨JSNum.fin 0, JSNum.fin 0⟩,
    kind := some kind }

/-- The value of the brick of the cell `(ix, iy)` in exact arithmetic, for a finite width
`W` and `nx ≥ 1` columns; it serves the proof that the bricks of a level do not
overlap. -/
def gridBrick (W : ℚ) (nx : Nat) (kind : String) (id ix iy : Nat) : Entity :=
  { id := id,
    position := ⟨JSNum.fin (ix * ((W - 2 * 3) / nx) + 3 + (W - 2 * 3) / nx / 2),
                 JSNum.fin (iy * (12 + 3) + 3 + 10 + (12 + 3) / 2)⟩,
    size := ⟨JSNum.fin ((W - 2 * 3) / nx - 3), JSNum.fin 12⟩,
    velocity := ⟨JSNum.fin 0, JSNum.fin 0⟩,
    kind := some kind }

/-- The values of `dt` computed by successive `update` calls with the given
timestamps, starting from `g`. -/
def frameDts : Game → List ℚ → List JSNum
  | _, [] => []
  | g, t :: ts => frameDt g (some (JSNum.fin t)) :: frameDts (g.update (some (JSNum.fin t))) ts

end Game

/-- A pattern source with no columns: a 0x3 grid. -/
def sampleNoColumns : Int → Pattern := fun _ => ⟨(0, 3), fun _ _ => "normal"⟩

/-- A pattern source: a 3x2 grid, solid top row with its middle cell empty, normal
bottom row. -/
def sampleGrid : Int → Pattern := fun _ =>
  ⟨(3, 2), fun ix iy => if iy = 0 then (if ix = 1 then "empty" else "solid") else "normal"⟩

/-! ## Arithmetic on finite numbers -/

namespace JSNum

@[simp] theorem neg_fin (a : ℚ) : -(fin a) = fin (-a) := rfl

@[simp] theorem fin_add_fin (a b : ℚ) : fin a + fin b = fin (a + b) := rfl

@[simp] theorem fin_sub_fin (a b : ℚ) : fin a - fin b = fin (a - b) := by
  show add (fin a) (neg (fin b)) = fin (a - b)
  simp [add, neg, sub_eq_add_neg]

@[simp] theorem fin_mul_fin (a b : ℚ) : fin a * fin b = fin (a * b) := rfl

@[simp] theorem fin_div_fin (a b : ℚ) :
    fin a / fin b =
      if b = 0 then (if a = 0 then nan else if 0 < a then posInf else negInf)
      else fin (a / b) := rfl

@[simp] theorem lt_fin_fin (a b : ℚ) : lt (fin a) (fin b) = decide (a < b) := rfl

@[simp] theorem le_fin_fin (a b : ℚ) : le (fin a) (fin b) = decide (a ≤ b) := rfl

@[simp] theorem max_fin_fin (a b : ℚ) : max (fin a) (fin b) = if a < b then fin b else fin a := by
  simp [max]

@[simp] theorem min_fin_fin (a b : ℚ) : min (fin a) (fin b) = if b < a then fin b else fin a := by
  simp [min]

theorem add_fin_zero (a : JSNum) : a + fin 0 = a := by
  cases a with
  | fin q => show fin (q + 0) = fin q; simp
  | posInf => rfl
  | negInf => rfl
  | nan => rfl

theorem mul_comm_js (a b : JSNum) : a * b = b * a := by
  cases a <;> cases b <;> first
    | rfl
    | (show fin _ = fin _; rw [mul_comm])

theorem mul_neg_one (a : JSNum) : a * fin (-1) = -a := by
  cases a with
  | fin q => show fin (q * -1) = fin (-q); simp
  | posInf => show mul posInf (fin (-1)) = negInf; simp [mul]
  | negInf => show mul negInf (fin (-1)) = posInf; simp [mul]
  | nan => rfl

end JSNum

/-! ## `getBallCollision` -/

namespace Game

theorem scanBricks_eq_find (r : Rect) (bricks : List Entity) :
    scanBricks r bricks =
      match bricks.find? (fun b => r.overlaps b.rect) with
      | some b => { kind := some "brick", entity := some b }
      | none => {} := by
  induction bricks with
  | nil => rfl
  | cons b rest ih =>
    by_cases h : r.overlaps b.rect = true
    · simp [scanBricks, List.find?, h]
    · simp only [Bool.not_eq_true] at h
      simp [scanBricks, List.find?, h, ih]

theorem scanBricks_first (r : Rect) (pre : List Entity) (b : Entity) (post : List Entity)
    (hpre : ∀ x ∈ pre, r.overlaps x.rect = false) (hb : r.overlaps b.rect = true) :
    scanBricks r (pre ++ b :: post) = { kind := some "brick", entity := some b } := by
  induction pre with
  | nil => simp [scanBricks, hb]
  | cons x xs ih =>
    have hx : r.overlaps x.rect = false := hpre x (List.mem_cons_self x xs)
    have hxs : ∀ y ∈ xs, r.overlaps y.rect = false :=
      fun y hy => hpre y (List.mem_cons_of_mem x hy)
    simp [scanBricks, hx, ih hxs]

theorem scanBricks_eq_empty_iff (r : Rect) (bricks : List Entity) :
    scanBricks r bricks = {} ↔ ∀ b ∈ bricks, r.overlaps b.rect = false := by
  induction bricks with
  | nil => simp [scanBricks]
  | cons b rest ih =>
    by_cases h : r.overlaps b.rect = true
    · simp [scanBricks, h]
    · simp only [Bool.not_eq_true] at h
      simp [scanBricks, h, ih]

/-- C1: whenever the ball rectangle centred at the candidate position is not fully
within the playfield rectangle, `getBallCollision` returns kind "viewport" with no
entity, whatever the paddle and the bricks are. -/
theorem getBallCollision_viewport (g : Game) (pos : Point)
    (h : (Rect.centered pos g.ball.size).within g.playfield.rect = false) :
    g.getBallCollision pos = { kind := some "viewport", entity := none } := by
  simp [getBallCollision, h]

/-- C2: a ball rectangle within the playfield that overlaps the paddle gives kind
"paddle" with no entity, whatever the bricks are; and kind "paddle" is returned only
in that case. -/
theorem getBallCollision_paddle (g : Game) (pos : Point) :
    ((Rect.centered pos g.ball.size).within g.playfield.rect = true ∧
        (Rect.centered pos g.ball.size).overlaps g.paddle.rect = true →
      g.getBallCollision pos = { kind := some "paddle", entity := none }) ∧
    ((g.getBallCollision pos).kind = some "paddle" →
      (Rect.centered pos g.ball.size).within g.playfield.rect = true ∧
        (Rect.centered pos g.ball.size).overlaps g.paddle.rect = true) := by
  constructor
  · rintro ⟨hw, ho⟩
    simp [getBallCollision, hw, ho]
  · intro hk
    by_cases hw : (Rect.centered pos g.ball.size).within g.playfield.rect = true
    · by_cases ho : (Rect.centered pos g.ball.size).overlaps g.paddle.rect = true
      · exact ⟨hw, ho⟩
      · exfalso
        simp only [Bool.not_eq_true] at ho
        simp only [getBallCollision, hw, ho, scanBricks_eq_find] at hk
        revert hk
        cases g.bricks.find? (fun b => (Rect.centered pos g.ball.size).overlaps b.rect) <;>
          simp
    · exfalso
      simp only [Bool.not_eq_true] at hw
      simp [getBallCollision, hw] at hk

/-- C3: for a ball rectangle within the playfield that does not overlap the paddle, the
result is kind "brick" with the first brick of the collection, in list order, whose
rectangle overlaps the ball rectangle, and it is the empty result exactly when no
brick of the collection overlaps it. -/
theorem getBallCollision_brick_scan (g : Game) (pos : Point)
    (hw : (Rect.centered pos g.ball.size).within g.playfield.rect = true)
    (hp : (Rect.centered pos g.ball.size).overlaps g.paddle.rect = false) :
    (∀ pre b post, g.bricks = pre ++ b :: post →
        (∀ x ∈ pre, (Rect.centered pos g.ball.size).overlaps x.rect = false) →
        (Rect.centered pos g.ball.size).overlaps b.rect = true →
        g.getBallCollision pos = { kind := some "brick", entity := some b }) ∧
    (g.getBallCollision pos =
        match g.bricks.find? (fun b => (Rect.centered pos g.ball.size).overlaps b.rect) with
        | some b => { kind := some "brick", entity := some b }
        | none => {}) ∧
    (g.getBallCollision pos = {} ↔
        ∀ b ∈ g.bricks, (Rect.centered pos g.ball.size).overlaps b.rect = false) := by
  have hscan : g.getBallCollision pos = scanBricks (Rect.centered pos g.ball.size) g.bricks := by
    simp [getBallCollision, hw, hp]
  refine ⟨?_, ?_, ?_⟩
  · intro pre b post hb hpre hov
    rw [hscan, hb]
    exact scanBricks_first _ pre b post hpre hov
  · rw [hscan]
    exact scanBricks_eq_find _ _
  · rw [hscan]
    exact scanBricks_eq_empty_iff _ _

theorem getBallCollision_viewport_witness :
    (Rect.centered ⟨JSNum.fin 2, JSNum.fin 224⟩ sampleGame.ball.size).overlaps
        sampleGame.paddle.rect = true ∧
      sampleGame.getBallCollision ⟨JSNum.fin 2, JSNum.fin 224⟩ =
        { kind := some "viewport", entity := none } :=
  ⟨by norm_num [sampleGame, sampleBall, samplePaddle, Entity.rect, Rect.centered,
      Rect.overlaps, Point.sub, Point.div, Point.scalar],
   getBallCollision_viewport sampleGame ⟨JSNum.fin 2, JSNum.fin 224⟩
    (by norm_num [sampleGame, sampleBall, Playfield.rect, Rect.centered, Rect.within,
      Point.sub, Point.div, Point.scalar])⟩

theorem getBallCollision_paddle_witness :
    (Rect.centered ⟨JSNum.fin 20, JSNum.fin 222⟩ sampleGame.ball.size).overlaps
        sampleStray.rect = true ∧
      sampleGame.getBallCollision ⟨JSNum.fin 20, JSNum.fin 222⟩ =
        { kind := some "paddle", entity := none } :=
  ⟨by norm_num [sampleGame, sampleBall, sampleStray, Entity.rect, Rect.centered,
      Rect.overlaps, Point.sub, Point.div, Point.scalar],
   (getBallCollision_paddle sampleGame ⟨JSNum.fin 20, JSNum.fin 222⟩).1
    ⟨by norm_num [sampleGame, sampleBall, Playfield.rect, Rect.centered, Rect.within,
        Point.sub, Point.div, Point.scalar],
     by norm_num [sampleGame, sampleBall, samplePaddle, Entity.rect, Rect.centered,
        Rect.overlaps, Point.sub, Point.div, Point.scalar]⟩⟩

theorem getBallCollision_brick_scan_witness :
    (Rect.centered ⟨JSNum.fin 50, JSNum.fin 22⟩ sampleGame.ball.size).overlaps
        sampleNormal.rect = true ∧
      sampleGame.getBallCollision ⟨JSNum.fin 50, JSNum.fin 22⟩ =
        { kind := some "brick", entity := some sampleSolid } :=
  ⟨by norm_num [sampleGame, sampleBall, sampleNormal, Entity.rect, Rect.centered,
      Rect.overlaps, Point.sub, Point.div, Point.scalar],
   (getBallCollision_brick_scan sampleGame ⟨JSNum.fin 50, JSNum.fin 22⟩
      (by norm_num [sampleGame, sampleBall, Playfield.rect, Rect.centered, Rect.within,
        Point.sub, Point.div, Point.scalar])
      (by norm_num [sampleGame, sampleBall, samplePaddle, Entity.rect, Rect.centered,
        Rect.overlaps, Point.sub, Point.div, Point.scalar])).1
      [] sampleSolid [sampleNormal, sampleStray] rfl (by simp)
      (by norm_num [sampleGame, sampleBall, sampleSolid, Entity.rect, Rect.centered,
        Rect.overlaps, Point.sub, Point.div, Point.scalar])⟩

/-! ## `update` -/

theorem resolveAxes_eq (g : Game) (dt : JSNum) :
    resolveAxes g dt =
      ({ g with ball := { g.ball with velocity :=
          ⟨if (collisionX g dt).kind.isSome then clampedVx g * JSNum.fin (-1) else clampedVx g,
           if (collisionY g dt).kind.isSome then gravityVy g dt * JSNum.fin (-1)
             else gravityVy g dt⟩ } },
        collisionX g dt, collisionY g dt) := by
  have hy : getBallCollision (clampAndGravity g dt)
      ⟨(clampAndGravity g dt).ball.position.x,
        (next_ball_pos (clampAndGravity g dt) dt).y⟩ = collisionY g dt := rfl
  have hx1 : getBallCollision (flipY (clampAndGravity g dt))
      ⟨(next_ball_pos (flipY (clampAndGravity g dt)) dt).x,
        (flipY (clampAndGravity g dt)).ball.position.y⟩ = collisionX g dt := rfl
  have hx2 : getBallCollision (clampAndGravity g dt)
      ⟨(next_ball_pos (clampAndGravity g dt) dt).x,
        (clampAndGravity g dt).ball.position.y⟩ = collisionX g dt := rfl
  unfold resolveAxes
  simp only [hy]
  cases h1 : (collisionY g dt).kind.isSome <;>
    simp only [Bool.false_eq_true, if_false, if_true, hx1, hx2] <;>
    cases h2 : (collisionX g dt).kind.isSome <;>
    simp only [Bool.false_eq_true, if_false, if_true] <;> rfl

theorem removeStruck_bricks (g : Game) (c : Collision) :
    (removeStruck g c).bricks = g.bricks.filter (fun b => decide (¬ destroys c b)) := by
  unfold removeStruck
  by_cases hk : c.kind = some "brick"
  · cases he : c.entity with
    | none =>
      simp only [if_pos hk]
      symm
      rw [List.filter_eq_self]
      intro b _
      simp [destroys, he]
    | some entity =>
      by_cases hs : entity.kind ≠ some "solid"
      · simp only [if_pos hk, if_pos hs]
        apply List.filter_congr
        intro b _
        by_cases hb : b = entity
        · subst hb
          simp [destroys, hk, he, hs]
        · have hb2 : ¬ entity = b := fun h => hb h.symm
          simp [destroys, hk, he, hb, hb2]
      · simp only [if_pos hk, if_neg hs]
        symm
        rw [List.filter_eq_self]
        intro b _
        have : ¬ destroys c b := by
          rintro ⟨_, h2, h3⟩
          rw [he] at h2
          cases h2
          exact hs h3
        simp [this]
  · simp only [if_neg hk]
    symm
    rw [List.filter_eq_self]
    intro b _
    simp [destroys, hk]

theorem removeStruck_ball (g : Game) (c : Collision) : (removeStruck g c).ball = g.ball := by
  unfold removeStruck
  split
  · split
    · split <;> rfl
    · rfl
  · rfl

theorem removeStruck_ball_speed (g : Game) (c : Collision) :
    (removeStruck g c).ball_speed = g.ball_speed := by
  unfold removeStruck
  split
  · split
    · split <;> rfl
    · rfl
  · rfl

theorem removeStruck_ball_stuck (g : Game) (c : Collision) :
    (removeStruck g c).ball_stuck = g.ball_stuck := by
  unfold removeStruck
  split
  · split
    · split <;> rfl
    · rfl
  · rfl

theorem paddlePush_bricks (g : Game) (c : Collision) : (paddlePush g c).bricks = g.bricks := by
  unfold paddlePush
  split <;> rfl

theorem paddlePush_ball_speed (g : Game) (c : Collision) :
    (paddlePush g c).ball_speed = g.ball_speed := by
  unfold paddlePush
  split <;> rfl

theorem paddlePush_position (g : Game) (c : Collision) :
    (paddlePush g c).ball.position = g.ball.position := by
  unfold paddlePush
  split <;> rfl

theorem launchedStep_bricks (g : Game) (dt : JSNum) :
    (launchedStep g dt).bricks =
      g.bricks.filter (fun b =>
        decide (¬ destroys (collisionX g dt) b ∧ ¬ destroys (collisionY g dt) b)) := by
  unfold launchedStep
  rw [resolveAxes_eq]
  simp only [List.foldl_cons, List.foldl_nil]
  show (removeStruck (removeStruck _ (collisionX g dt)) (collisionY g dt)).bricks = _
  rw [removeStruck_bricks, removeStruck_bricks, paddlePush_bricks, List.filter_filter]
  apply List.filter_congr
  intro b _
  by_cases h1 : destroys (collisionX g dt) b <;> by_cases h2 : destroys (collisionY g dt) b <;>
    simp [h1, h2]

theorem launchedStep_velocity (g : Game) (dt : JSNum) :
    (launchedStep g dt).ball.velocity =
      (paddlePush (resolveAxes g dt).1 (collisionY g dt)).ball.velocity := by
  unfold launchedStep
  rw [resolveAxes_eq]
  simp only [List.foldl_cons, List.foldl_nil]
  show (removeStruck (removeStruck _ (collisionX g dt)) (collisionY g dt)).ball.velocity = _
  rw [removeStruck_ball, removeStruck_ball]

theorem launchedStep_position (g : Game) (dt : JSNum) :
    (launchedStep g dt).ball.position =
      g.ball.position.add
        ((launchedStep g dt).ball.velocity.mul (Point.scalar (dt * g.ball_speed))) := by
  rw [launchedStep_velocity]
  unfold launchedStep
  rw [resolveAxes_eq]
  simp only [List.foldl_cons, List.foldl_nil]
  show next_ball_pos (removeStruck (removeStruck _ (collisionX g dt)) (collisionY g dt)) dt = _
  unfold next_ball_pos
  rw [removeStruck_ball, removeStruck_ball, removeStruck_ball_speed, removeStruck_ball_speed,
    paddlePush_ball_speed, paddlePush_position]

theorem launchedStep_ball_stuck (g : Game) (dt : JSNum) :
    (launchedStep g dt).ball_stuck = g.ball_stuck := by
  unfold launchedStep
  rw [resolveAxes_eq]
  simp only [List.foldl_cons, List.foldl_nil]
  show (removeStruck (removeStruck _ (collisionX g dt)) (collisionY g dt)).ball_stuck = _
  rw [removeStruck_ball_stuck, removeStruck_ball_stuck]
  unfold paddlePush
  split <;> rfl

theorem update_launched (g : Game) (newtime : Option JSNum) (h : g.ball_stuck = false) :
    g.update newtime =
      { launchedStep (tick g newtime) (frameDt g newtime) with
        paddle_xvel :=
          ((launchedStep (tick g newtime) (frameDt g newtime)).paddle.x
            - (launchedStep (tick g newtime) (frameDt g newtime)).last_paddle_x)
            / frameDt g newtime,
        last_paddle_x := (launchedStep (tick g newtime) (frameDt g newtime)).paddle.x } := by
  have h2 : (tick g newtime).ball_stuck = false := h
  unfold update
  simp only [h2, Bool.false_eq_true, if_false]

theorem update_stuck (g : Game) (newtime : Option JSNum) (h : g.ball_stuck = true) :
    g.update newtime =
      { tick g newtime with
        ball := { g.ball with
          position := g.paddle.position.add ⟨JSNum.fin 0, JSNum.fin (-10)⟩ },
        paddle_xvel := (g.paddle.x - g.last_paddle_x) / frameDt g newtime,
        last_paddle_x := g.paddle.x } := by
  have h2 : (tick g newtime).ball_stuck = true := h
  unfold update
  simp only [h2, if_true]
  rfl

theorem update_bricks (g : Game) (newtime : Option JSNum) :
    (g.update newtime).bricks =
      if g.ball_stuck then g.bricks
      else g.bricks.filter (fun b =>
        decide (¬ destroys (collisionX g (frameDt g newtime)) b ∧
          ¬ destroys (collisionY g (frameDt g newtime)) b)) := by
  cases h : g.ball_stuck
  · rw [update_launched g newtime h]
    simp only [Bool.false_eq_true, if_false]
    exact launchedStep_bricks (tick g newtime) (frameDt g newtime)
  · rw [update_stuck g newtime h]
    rfl

theorem card_entity_le_one (o : Option Entity) : o.toFinset.card ≤ 1 := by
  cases o <;> simp

theorem destroys_entity {c : Collision} {b : Entity} (h : destroys c b) : b ∈ c.entity.toFinset := by
  simp [Option.mem_toFinset, h.2.1]

theorem keydown_bricks (g : Game) (random : JSNum) : (g.keydown random).bricks = g.bricks := by
  unfold keydown
  split <;> rfl

theorem step_bricks_sublist (g : Game) (e : Event) : (step g e).bricks.Sublist g.bricks := by
  cases e with
  | update newtime =>
    show (g.update newtime).bricks.Sublist g.bricks
    rw [update_bricks]
    cases g.ball_stuck
    · simp only [Bool.false_eq_true, if_false]
      exact List.filter_sublist _
    · simp
  | keydown random =>
    show (g.keydown random).bricks.Sublist g.bricks
    rw [keydown_bricks]
  | mousemove mousePos => exact List.Sublist.refl _

theorem run_bricks_sublist (g : Game) (events : List Event) :
    (run g events).bricks.Sublist g.bricks := by
  induction events generalizing g with
  | nil => exact List.Sublist.refl _
  | cons e rest ih =>
    show (run (step g e) rest).bricks.Sublist g.bricks
    exact (ih (step g e)).trans (step_bricks_sublist g e)

/-- C4: in a Launched update the bricks collection afterwards is the collection before
without the bricks struck destructively (kind "brick", entity not solid) by the Y-test or
by the X-test, both tests being taken on the state before the update; the other bricks
stay in their order, a destroyed brick is gone and stays out of the collection through
every later `update`, `keydown` and `mousemove`, and at most two bricks disappear. -/
theorem update_removes_struck_bricks (g : Game) (newtime : Option JSNum)
    (h : g.ball_stuck = false) :
    (g.update newtime).bricks =
        g.bricks.filter (fun b =>
          decide (¬ destroys (collisionX g (frameDt g newtime)) b ∧
            ¬ destroys (collisionY g (frameDt g newtime)) b)) ∧
      (g.update newtime).bricks.Sublist g.bricks ∧
      (∀ b, destroys (collisionY g (frameDt g newtime)) b ∨
          destroys (collisionX g (frameDt g newtime)) b →
          ∀ events, b ∉ (run (g.update newtime) events).bricks) ∧
      (∀ b ∈ g.bricks, ¬ destroys (collisionY g (frameDt g newtime)) b →
          ¬ destroys (collisionX g (frameDt g newtime)) b → b ∈ (g.update newtime).bricks) ∧
      (g.bricks.toFinset \ (g.update newtime).bricks.toFinset).card ≤ 2 := by
  have hb := update_bricks g newtime
  simp only [h, Bool.false_eq_true, if_false] at hb
  refine ⟨hb, ?_, ?_, ?_, ?_⟩
  · rw [hb]
    exact List.filter_sublist _
  · intro b hd events hrun
    have hmem : b ∈ (g.update newtime).bricks :=
      (run_bricks_sublist (g.update newtime) events).subset hrun
    rw [hb, List.mem_filter] at hmem
    have := hmem.2
    simp only [decide_eq_true_eq] at this
    rcases hd with hd | hd
    · exact this.2 hd
    · exact this.1 hd
  · intro b hmem hy hx
    rw [hb, List.mem_filter]
    exact ⟨hmem, by simp [hx, hy]⟩
  · have hsub : g.bricks.toFinset \ (g.update newtime).bricks.toFinset ⊆
        (collisionX g (frameDt g newtime)).entity.toFinset ∪
          (collisionY g (frameDt g newtime)).entity.toFinset := by
      intro b hbm
      rw [Finset.mem_sdiff, List.mem_toFinset, List.mem_toFinset, hb, List.mem_filter] at hbm
      obtain ⟨hin, hnot⟩ := hbm
      rw [Finset.mem_union]
      by_cases hx : destroys (collisionX g (frameDt g newtime)) b
      · exact Or.inl (destroys_entity hx)
      · by_cases hy : destroys (collisionY g (frameDt g newtime)) b
        · exact Or.inr (destroys_entity hy)
        · exact absurd ⟨hin, by simp [hx, hy]⟩ hnot
    calc (g.bricks.toFinset \ (g.update newtime).bricks.toFinset).card
        ≤ ((collisionX g (frameDt g newtime)).entity.toFinset ∪
            (collisionY g (frameDt g newtime)).entity.toFinset).card := Finset.card_le_card hsub
      _ ≤ (collisionX g (frameDt g newtime)).entity.toFinset.card +
            (collisionY g (frameDt g newtime)).entity.toFinset.card := Finset.card_union_le _ _
      _ ≤ 1 + 1 := Nat.add_le_add (card_entity_le_one _) (card_entity_le_one _)

theorem update_keeps_solid (g : Game) (newtime : Option JSNum) (b : Entity)
    (hb : b ∈ g.bricks) (hs : b.kind = some "solid") : b ∈ (g.update newtime).bricks := by
  rw [update_bricks]
  cases g.ball_stuck
  · simp only [Bool.false_eq_true, if_false, List.mem_filter]
    exact ⟨hb, by simp [destroys, hs]⟩
  · simpa using hb

theorem mousemove_bricks (g : Game) (mousePos : Point) :
    (g.mousemove mousePos).bricks = g.bricks := rfl

theorem step_keeps_solid (g : Game) (e : Event) (b : Entity)
    (hb : b ∈ g.bricks) (hs : b.kind = some "solid") : b ∈ (step g e).bricks := by
  cases e with
  | update newtime => exact update_keeps_solid g newtime b hb hs
  | keydown random => show b ∈ (g.keydown random).bricks; rw [keydown_bricks]; exact hb
  | mousemove mousePos => exact hb

/-- C5: a brick of kind "solid" that is in the bricks collection is still in it after any
sequence of `update`, `keydown` and `mousemove` calls, whatever their arguments. -/
theorem solid_bricks_never_removed (g : Game) (events : List Event) (b : Entity)
    (hb : b ∈ g.bricks) (hs : b.kind = some "solid") : b ∈ (run g events).bricks := by
  induction events generalizing g with
  | nil => exact hb
  | cons e rest ih =>
    show b ∈ (run (step g e) rest).bricks
    exact ih (step g e) (step_keeps_solid g e b hb hs)

theorem solid_bricks_never_removed_witness :
    sampleSolid ∈ sampleStrike.bricks ∧ sampleSolid.kind = some "solid" ∧
      sampleSolid ∈ (run sampleStrike
        [.update (some (JSNum.fin 100)), .mousemove ⟨JSNum.fin 300, JSNum.fin 0⟩,
          .keydown (JSNum.fin (1/4)), .update (some (JSNum.fin 200))]).bricks :=
  ⟨by simp [sampleStrike, sampleGame], rfl,
   solid_bricks_never_removed sampleStrike _ sampleSolid (by simp [sampleStrike, sampleGame]) rfl⟩

theorem sampleStrike_frameDt :
    frameDt sampleStrike (some (JSNum.fin 100)) = JSNum.fin (1/10) := by
  norm_num [frameDt, nullish, toNumber, sampleStrike, sampleGame]

theorem sampleStrike_collisionY :
    collisionY sampleStrike (JSNum.fin (1/10)) =
      { kind := some "brick", entity := some sampleNormal } := by
  norm_num [collisionY, candidate, gravityVy, clampedVx, getBallCollision, scanBricks,
    sampleStrike, sampleGame, sampleBall, samplePaddle, sampleSolid, sampleNormal,
    Playfield.rect, Entity.rect, Rect.centered, Rect.within, Rect.overlaps, Point.sub,
    Point.div, Point.scalar]

theorem sampleStrike_collisionX :
    collisionX sampleStrike (JSNum.fin (1/10)) = {} := by
  norm_num [collisionX, candidate, gravityVy, clampedVx, getBallCollision, scanBricks,
    sampleStrike, sampleGame, sampleBall, samplePaddle, sampleSolid, sampleNormal, sampleStray,
    Playfield.rect, Entity.rect, Rect.centered, Rect.within, Rect.overlaps, Point.sub,
    Point.div, Point.scalar]

theorem update_removes_struck_bricks_witness :
    sampleStrike.ball_stuck = false ∧
      (sampleStrike.update (some (JSNum.fin 100))).bricks = [sampleSolid, sampleStray] :=
  ⟨rfl, by
    rw [(update_removes_struck_bricks sampleStrike (some (JSNum.fin 100)) rfl).1,
      sampleStrike_frameDt, sampleStrike_collisionY, sampleStrike_collisionX]
    simp [destroys, sampleStrike, sampleGame, sampleSolid, sampleNormal, sampleStray,
      List.filter]⟩

theorem launchedStep_eq_candidate (g : Game) (dt : JSNum)
    (hy : (collisionY g dt).kind = none) (hx : (collisionX g dt).kind = none) :
    (launchedStep g dt).ball.position = candidate g dt := by
  rw [launchedStep_position, launchedStep_velocity, resolveAxes_eq]
  have hp : (collisionY g dt).kind ≠ some "paddle" := by rw [hy]; simp
  simp only [paddlePush, hx, hy, Option.isSome_none, Bool.false_eq_true, if_false, if_neg hp]
  rfl

theorem paddlePush_of_ne (g : Game) (c : Collision) (h : c.kind ≠ some "paddle") :
    paddlePush g c = g := by
  simp [paddlePush, h]

theorem sampleGame_frameDt :
    frameDt sampleGame (some (JSNum.fin 100)) = JSNum.fin (1/10) := by
  norm_num [frameDt, nullish, toNumber, sampleGame]

theorem sampleGame_collisionY :
    collisionY sampleGame (JSNum.fin (1/10)) = { kind := some "viewport", entity := none } := by
  norm_num [collisionY, candidate, gravityVy, clampedVx, getBallCollision,
    sampleGame, sampleBall, Playfield.rect, Rect.centered, Rect.within, Point.sub,
    Point.div, Point.scalar]

theorem sampleGame_collisionX :
    collisionX sampleGame (JSNum.fin (1/10)) = {} := by
  norm_num [collisionX, candidate, gravityVy, clampedVx, getBallCollision, scanBricks,
    sampleGame, sampleBall, samplePaddle, sampleSolid, sampleNormal, sampleStray,
    Playfield.rect, Entity.rect, Rect.centered, Rect.within, Rect.overlaps, Point.sub,
    Point.div, Point.scalar]

theorem sampleGame_update_position :
    (sampleGame.update (some (JSNum.fin 100))).ball.position =
      ⟨JSNum.fin 50, JSNum.fin (1084/5)⟩ := by
  rw [update_launched sampleGame _ rfl]
  show (launchedStep (tick sampleGame (some (JSNum.fin 100)))
    (frameDt sampleGame (some (JSNum.fin 100)))).ball.position = _
  rw [launchedStep_position, launchedStep_velocity, resolveAxes_eq, sampleGame_frameDt]
  have hy : collisionY (tick sampleGame (some (JSNum.fin 100))) (JSNum.fin (1/10)) =
      { kind := some "viewport", entity := none } := sampleGame_collisionY
  have hx : collisionX (tick sampleGame (some (JSNum.fin 100))) (JSNum.fin (1/10)) = {} :=
    sampleGame_collisionX
  rw [hy, hx, paddlePush_of_ne _ _ (by decide)]
  norm_num [tick, gravityVy, clampedVx, sampleGame, sampleBall, Point.add,
    Point.mul, Point.scalar]

/-- C6, as stated, fails: in the sample game the Y-test reports the viewport, and the
position committed by `update` is `(50, 216.8)`, not the candidate `(50, 243.2)`. -/
theorem update_position_not_candidate :
    sampleGame.ball_stuck = false ∧
      candidate sampleGame (frameDt sampleGame (some (JSNum.fin 100))) =
        ⟨JSNum.fin 50, JSNum.fin (1216/5)⟩ ∧
      (sampleGame.update (some (JSNum.fin 100))).ball.position ≠
        candidate sampleGame (frameDt sampleGame (some (JSNum.fin 100))) := by
  have hc : candidate sampleGame (frameDt sampleGame (some (JSNum.fin 100))) =
      ⟨JSNum.fin 50, JSNum.fin (1216/5)⟩ := by
    rw [sampleGame_frameDt]
    norm_num [candidate, gravityVy, clampedVx, sampleGame, sampleBall]
  refine ⟨rfl, hc, ?_⟩
  rw [hc, sampleGame_update_position]
  intro h
  injection h with _ h2
  injection h2 with h3
  norm_num at h3

/-- C6, amended: in a Launched update the position afterwards is the position before
plus the velocity after the update (after the sign inversions and the paddle push)
multiplied by `dt * ball_speed` on both axes; when neither test reports a collision it is
the candidate next position. -/
theorem update_commits_position (g : Game) (newtime : Option JSNum)
    (h : g.ball_stuck = false) :
    (g.update newtime).ball.position =
        g.ball.position.add
          ((g.update newtime).ball.velocity.mul
            (Point.scalar (frameDt g newtime * g.ball_speed))) ∧
      ((collisionY g (frameDt g newtime)).kind = none →
        (collisionX g (frameDt g newtime)).kind = none →
        (g.update newtime).ball.position = candidate g (frameDt g newtime)) := by
  rw [update_launched g newtime h]
  constructor
  · exact launchedStep_position (tick g newtime) (frameDt g newtime)
  · intro hy hx
    exact launchedStep_eq_candidate (tick g newtime) (frameDt g newtime) hy hx

theorem update_commits_position_witness :
    sampleStrike.ball_stuck = false ∧
      (sampleStrike.update (some (JSNum.fin 100))).ball.position =
        sampleStrike.ball.position.add
          ((sampleStrike.update (some (JSNum.fin 100))).ball.velocity.mul
            (Point.scalar (frameDt sampleStrike (some (JSNum.fin 100))
              * sampleStrike.ball_speed))) :=
  ⟨rfl, (update_commits_position sampleStrike (some (JSNum.fin 100)) rfl).1⟩

theorem update_velocity (g : Game) (newtime : Option JSNum) (h : g.ball_stuck = false) :
    (g.update newtime).ball.velocity =
      (paddlePush (resolveAxes (tick g newtime) (frameDt g newtime)).1
        (collisionY g (frameDt g newtime))).ball.velocity := by
  rw [update_launched g newtime h]
  exact launchedStep_velocity (tick g newtime) (frameDt g newtime)

theorem paddlePush_velocity_y (g : Game) (c : Collision) :
    (paddlePush g c).ball.velocity.y = g.ball.velocity.y := by
  unfold paddlePush
  split <;> rfl

/-- C7: in a Launched update the Y-test is `getBallCollision` at (current x, candidate y)
and the X-test is `getBallCollision` at (candidate x, current y), both on the state before
the update; the vertical velocity afterwards is `vy + gravity*dt`, negated exactly when the
Y-test reports a kind; the horizontal velocity after the two tests is the clamped `vx`,
negated exactly when the X-test reports a kind, and it is the horizontal velocity
afterwards when the Y-test is not against the paddle. -/
theorem update_axis_separated (g : Game) (newtime : Option JSNum)
    (h : g.ball_stuck = false) :
    (resolveAxes (tick g newtime) (frameDt g newtime)).2.2 =
        g.getBallCollision ⟨g.ball.position.x,
          g.ball.position.y +
            (g.ball.velocity.y + g.gravity * frameDt g newtime)
              * (frameDt g newtime * g.ball_speed)⟩ ∧
      (resolveAxes (tick g newtime) (frameDt g newtime)).2.1 =
        g.getBallCollision ⟨g.ball.position.x +
            JSNum.min g.max_ball_speed (JSNum.max (-g.max_ball_speed) g.ball.velocity.x)
              * (frameDt g newtime * g.ball_speed),
          g.ball.position.y⟩ ∧
      (g.update newtime).ball.velocity.y =
        (if (resolveAxes (tick g newtime) (frameDt g newtime)).2.2.kind.isSome
          then -(g.ball.velocity.y + g.gravity * frameDt g newtime)
          else g.ball.velocity.y + g.gravity * frameDt g newtime) ∧
      (resolveAxes (tick g newtime) (frameDt g newtime)).1.ball.velocity.x =
        (if (resolveAxes (tick g newtime) (frameDt g newtime)).2.1.kind.isSome
          then -(JSNum.min g.max_ball_speed (JSNum.max (-g.max_ball_speed) g.ball.velocity.x))
          else JSNum.min g.max_ball_speed (JSNum.max (-g.max_ball_speed) g.ball.velocity.x)) ∧
      ((resolveAxes (tick g newtime) (frameDt g newtime)).2.2.kind ≠ some "paddle" →
        (g.update newtime).ball.velocity.x =
          (resolveAxes (tick g newtime) (frameDt g newtime)).1.ball.velocity.x) := by
  have hv := update_velocity g newtime h
  have hr := resolveAxes_eq (tick g newtime) (frameDt g newtime)
  have hcy : collisionY (tick g newtime) (frameDt g newtime) = collisionY g (frameDt g newtime) :=
    rfl
  have hcx : collisionX (tick g newtime) (frameDt g newtime) = collisionX g (frameDt g newtime) :=
    rfl
  rw [hcy, hcx] at hr
  rw [hv, hr]
  refine ⟨rfl, rfl, ?_, ?_, ?_⟩
  · rw [paddlePush_velocity_y]
    show (if (collisionY g (frameDt g newtime)).kind.isSome then _ else _) = _
    rw [JSNum.mul_neg_one]
    rfl
  · show (if (collisionX g (frameDt g newtime)).kind.isSome then _ else _) = _
    rw [JSNum.mul_neg_one]
    rfl
  · intro hne
    rw [paddlePush_of_ne _ _ hne]

theorem update_axis_separated_witness :
    sampleStrike.ball_stuck = false ∧
      (sampleStrike.update (some (JSNum.fin 100))).ball.velocity = ⟨JSNum.fin 0, JSNum.fin 90⟩ :=
  ⟨rfl, by
    have hw := update_axis_separated sampleStrike (some (JSNum.fin 100)) rfl
    obtain ⟨hy, hx, hvy, hvx, hpush⟩ := hw
    have hy2 : (resolveAxes (tick sampleStrike (some (JSNum.fin 100)))
        (frameDt sampleStrike (some (JSNum.fin 100)))).2.2 =
        { kind := some "brick", entity := some sampleNormal } := by
      rw [resolveAxes_eq, sampleStrike_frameDt]
      exact sampleStrike_collisionY
    have hx2 : (resolveAxes (tick sampleStrike (some (JSNum.fin 100)))
        (frameDt sampleStrike (some (JSNum.fin 100)))).2.1 = {} := by
      rw [resolveAxes_eq, sampleStrike_frameDt]
      exact sampleStrike_collisionX
    have hvx2 := hpush (by rw [hy2]; decide)
    rw [hvx, hx2] at hvx2
    rw [hy2] at hvy
    rw [sampleStrike_frameDt] at hvy
    have e : (sampleStrike.update (some (JSNum.fin 100))).ball.velocity =
        ⟨(sampleStrike.update (some (JSNum.fin 100))).ball.velocity.x,
         (sampleStrike.update (some (JSNum.fin 100))).ball.velocity.y⟩ := rfl
    rw [e, hvx2, hvy]
    norm_num [sampleStrike, sampleGame]⟩

theorem removeStruck_max_ball_speed (g : Game) (c : Collision) :
    (removeStruck g c).max_ball_speed = g.max_ball_speed := by
  unfold removeStruck
  split
  · split
    · split <;> rfl
    · rfl
  · rfl

theorem update_max_ball_speed (g : Game) (newtime : Option JSNum) :
    (g.update newtime).max_ball_speed = g.max_ball_speed := by
  cases h : g.ball_stuck
  · rw [update_launched g newtime h]
    show (launchedStep (tick g newtime) (frameDt g newtime)).max_ball_speed = _
    unfold launchedStep
    rw [resolveAxes_eq]
    simp only [List.foldl_cons, List.foldl_nil]
    show (removeStruck (removeStruck _ _) _).max_ball_speed = _
    rw [removeStruck_max_ball_speed, removeStruck_max_ball_speed]
    unfold paddlePush
    split <;> rfl
  · rw [update_stuck g newtime h]
    rfl

theorem step_max_ball_speed (g : Game) (e : Event) :
    (step g e).max_ball_speed = g.max_ball_speed := by
  cases e with
  | update newtime => exact update_max_ball_speed g newtime
  | keydown random =>
    show (g.keydown random).max_ball_speed = _
    unfold keydown
    split <;> rfl
  | mousemove mousePos => rfl

/-- In every state reached from `loadLevel` by `update`, `keydown` and `mousemove` the
field `max_ball_speed` is the finite number 300. -/
theorem max_ball_speed_after_loadLevel (brickPattern : Int → Pattern) (g : Game) (level : Int)
    (events : List Event) :
    (run (loadLevel brickPattern g level) events).max_ball_speed = JSNum.fin 300 := by
  have hrun : ∀ (events : List Event) (g1 : Game),
      (run g1 events).max_ball_speed = g1.max_ball_speed := by
    intro events
    induction events with
    | nil => intro g1; rfl
    | cons e rest ih =>
      intro g1
      show (run (step g1 e) rest).max_ball_speed = _
      rw [ih (step g1 e), step_max_ball_speed]
  rw [hrun]
  rfl

theorem min_max_eq_specClamp (m : ℚ) (hm : 0 ≤ m) (v : JSNum) :
    JSNum.min (JSNum.fin m) (JSNum.max (-(JSNum.fin m)) v) =
      specClamp v (-(JSNum.fin m)) (JSNum.fin m) := by
  cases v with
  | fin q =>
    simp only [JSNum.neg_fin, JSNum.max_fin_fin, specClamp, JSNum.lt_fin_fin, decide_eq_true_eq]
    by_cases h1 : q < -m
    · have h2 : ¬ (-m < q) := by linarith
      have h3 : ¬ (-m < -m) := lt_irrefl _
      simp only [h2, if_false, JSNum.min_fin_fin, if_pos h1]
      by_cases h4 : -m < m
      · simp [h4]
      · have : m = 0 := by linarith
        subst this
        simp
    · by_cases h2 : m < q
      · have h3 : -m < q := by linarith
        simp only [h3, if_true, JSNum.min_fin_fin, if_neg h1, if_pos h2]
        have h4 : ¬ (q < m) := by linarith
        simp [h4]
      · simp only [if_neg h1, if_neg h2]
        by_cases h3 : -m < q
        · simp only [h3, if_true, JSNum.min_fin_fin]
          by_cases h4 : q < m
          · simp [h4]
          · have : q = m := by linarith
            subst this
            simp
        · have : q = -m := by linarith
          subst this
          simp only [lt_irrefl, if_false, JSNum.min_fin_fin]
          by_cases h4 : -m < m
          · simp [h4]
          · have : m = 0 := by linarith
            subst this
            simp
  | posInf => simp [JSNum.max, JSNum.min, JSNum.lt, specClamp]
  | negInf =>
    simp only [JSNum.neg_fin, JSNum.max, JSNum.lt, Bool.false_eq_true, if_false,
      JSNum.min_fin_fin, specClamp, if_true]
    by_cases h4 : -m < m
    · simp [h4]
    · have : m = 0 := by linarith
      subst this
      simp
  | nan => simp [JSNum.max, JSNum.min, JSNum.lt, specClamp]

/-- C8: in an update with elapsed time `dt`, when `max_ball_speed` is a finite
non-negative number, the velocity the candidate position is computed from is
`(clamp(vx, -max_ball_speed, max_ball_speed), vy + gravity*dt)`, and the candidate is the
position plus that velocity times `dt * ball_speed`: gravity is added before the
displacement is computed.  The Y-test is taken at that candidate's y, and when neither
test reports a collision the update ends with that velocity at that candidate. -/
theorem candidate_uses_clamp_and_gravity (g : Game) (newtime : Option JSNum) (m : ℚ)
    (h : g.ball_stuck = false) (hmax : g.max_ball_speed = JSNum.fin m) (hm : 0 ≤ m) :
    (clampAndGravity (tick g newtime) (frameDt g newtime)).ball.velocity =
        ⟨specClamp g.ball.velocity.x (-g.max_ball_speed) g.max_ball_speed,
         g.ball.velocity.y + g.gravity * frameDt g newtime⟩ ∧
      next_ball_pos (clampAndGravity (tick g newtime) (frameDt g newtime)) (frameDt g newtime) =
        ⟨g.ball.position.x +
            specClamp g.ball.velocity.x (-g.max_ball_speed) g.max_ball_speed
              * (frameDt g newtime * g.ball_speed),
         g.ball.position.y +
            (g.ball.velocity.y + g.gravity * frameDt g newtime)
              * (frameDt g newtime * g.ball_speed)⟩ ∧
      (resolveAxes (tick g newtime) (frameDt g newtime)).2.2 =
        g.getBallCollision ⟨g.ball.position.x,
          (next_ball_pos (clampAndGravity (tick g newtime) (frameDt g newtime))
            (frameDt g newtime)).y⟩ ∧
      ((collisionY g (frameDt g newtime)).kind = none →
        (collisionX g (frameDt g newtime)).kind = none →
        (g.update newtime).ball.velocity =
            ⟨specClamp g.ball.velocity.x (-g.max_ball_speed) g.max_ball_speed,
             g.ball.velocity.y + g.gravity * frameDt g newtime⟩ ∧
          (g.update newtime).ball.position =
            next_ball_pos (clampAndGravity (tick g newtime) (frameDt g newtime))
              (frameDt g newtime)) := by
  have hc : JSNum.min g.max_ball_speed (JSNum.max (-g.max_ball_speed) g.ball.velocity.x) =
      specClamp g.ball.velocity.x (-g.max_ball_speed) g.max_ball_speed := by
    rw [hmax]
    exact min_max_eq_specClamp m hm _
  refine ⟨?_, ?_, ?_, ?_⟩
  · rw [← hc]; rfl
  · rw [← hc]; rfl
  · rw [resolveAxes_eq]; rfl
  · intro hy hx
    have hp : (collisionY g (frameDt g newtime)).kind ≠ some "paddle" := by rw [hy]; simp
    have hcy : collisionY (tick g newtime) (frameDt g newtime) =
        collisionY g (frameDt g newtime) := rfl
    have hcx : collisionX (tick g newtime) (frameDt g newtime) =
        collisionX g (frameDt g newtime) := rfl
    constructor
    · rw [update_velocity g newtime h, paddlePush_of_ne _ _ hp, resolveAxes_eq, hcy, hcx,
        ← hc]
      simp only [hx, hy, Option.isSome_none, Bool.false_eq_true, if_false]
      rfl
    · rw [update_launched g newtime h]
      exact launchedStep_eq_candidate (tick g newtime) (frameDt g newtime) hy hx

theorem candidate_uses_clamp_and_gravity_witness :
    sampleLaunch.ball_stuck = false ∧
      sampleLaunch.max_ball_speed = JSNum.fin 300 ∧ (0 : ℚ) ≤ 300 ∧
      frameDt sampleLaunch (some (JSNum.fin 100)) = JSNum.fin (1/10) ∧
      (clampAndGravity (tick sampleLaunch (some (JSNum.fin 100)))
          (frameDt sampleLaunch (some (JSNum.fin 100)))).ball.velocity =
        ⟨JSNum.fin 50, JSNum.fin (-190)⟩ ∧
      (next_ball_pos (clampAndGravity (tick sampleLaunch (some (JSNum.fin 100)))
          (frameDt sampleLaunch (some (JSNum.fin 100))))
          (frameDt sampleLaunch (some (JSNum.fin 100)))).y =
        JSNum.fin (200 + (-190) * (12/100)) := by
  have hdt : frameDt sampleLaunch (some (JSNum.fin 100)) = JSNum.fin (1/10) := by
    norm_num [frameDt, nullish, toNumber, sampleLaunch, sampleGame]
  have hw := candidate_uses_clamp_and_gravity sampleLaunch (some (JSNum.fin 100)) 300 rfl rfl
    (by norm_num)
  refine ⟨rfl, rfl, by norm_num, hdt, ?_, ?_⟩
  · rw [hw.1, hdt]
    norm_num [specClamp, sampleLaunch, sampleGame, sampleBall]
  · rw [hw.2.1, hdt]
    norm_num [specClamp, sampleLaunch, sampleGame, sampleBall]

/-- C9: in a Launched update whose Y-test is against the paddle, the horizontal velocity
afterwards is the horizontal velocity after the X-test, plus half the paddle velocity
estimate, plus -10 when the ball's x (before the commit) is below the paddle's x and +10
otherwise; when the Y-test is not against the paddle neither term is added. -/
theorem update_paddle_push (g : Game) (newtime : Option JSNum) (h : g.ball_stuck = false) :
    ((collisionY g (frameDt g newtime)).kind = some "paddle" →
        (g.update newtime).ball.velocity.x =
          (if (collisionX g (frameDt g newtime)).kind.isSome then -(clampedVx g)
            else clampedVx g)
            + g.paddle_xvel / JSNum.fin 2
            + (if JSNum.lt g.ball.position.x g.paddle.position.x then JSNum.fin (-10)
                else JSNum.fin 10)) ∧
      ((collisionY g (frameDt g newtime)).kind ≠ some "paddle" →
        (g.update newtime).ball.velocity.x =
          (if (collisionX g (frameDt g newtime)).kind.isSome then -(clampedVx g)
            else clampedVx g)) := by
  have hv := update_velocity g newtime h
  have hr := resolveAxes_eq (tick g newtime) (frameDt g newtime)
  have hcy : collisionY (tick g newtime) (frameDt g newtime) = collisionY g (frameDt g newtime) :=
    rfl
  have hcx : collisionX (tick g newtime) (frameDt g newtime) = collisionX g (frameDt g newtime) :=
    rfl
  rw [hcy, hcx] at hr
  rw [hv, hr]
  constructor
  · intro hp
    simp only [paddlePush, if_pos hp]
    show (if (collisionX g (frameDt g newtime)).kind.isSome
        then clampedVx g * JSNum.fin (-1) else clampedVx g)
        + g.paddle_xvel / JSNum.fin 2 + _ = _
    rw [JSNum.mul_neg_one]
    rfl
  · intro hne
    rw [paddlePush_of_ne _ _ hne]
    show (if (collisionX g (frameDt g newtime)).kind.isSome
        then clampedVx g * JSNum.fin (-1) else clampedVx g) = _
    rw [JSNum.mul_neg_one]

theorem update_paddle_push_witness :
    samplePaddleHit.ball_stuck = false ∧
      collisionY samplePaddleHit (frameDt samplePaddleHit (some (JSNum.fin 100))) =
        { kind := some "paddle", entity := none } ∧
      (samplePaddleHit.update (some (JSNum.fin 100))).ball.velocity.x = JSNum.fin 10 := by
  have hdt : frameDt samplePaddleHit (some (JSNum.fin 100)) = JSNum.fin (1/10) := by
    norm_num [frameDt, nullish, toNumber, samplePaddleHit, sampleGame]
  have hy : collisionY samplePaddleHit (JSNum.fin (1/10)) =
      { kind := some "paddle", entity := none } := by
    norm_num [collisionY, candidate, gravityVy, clampedVx, getBallCollision,
      samplePaddleHit, sampleGame, sampleBall, samplePaddle, Playfield.rect, Entity.rect,
      Rect.centered, Rect.within, Rect.overlaps, Point.sub, Point.div, Point.scalar]
  have hx : collisionX samplePaddleHit (JSNum.fin (1/10)) = {} := by
    norm_num [collisionX, candidate, gravityVy, clampedVx, getBallCollision, scanBricks,
      samplePaddleHit, sampleGame, sampleBall, samplePaddle, sampleSolid, sampleNormal,
      sampleStray, Playfield.rect, Entity.rect, Rect.centered, Rect.within, Rect.overlaps,
      Point.sub, Point.div, Point.scalar]
  refine ⟨rfl, by rw [hdt]; exact hy, ?_⟩
  rw [(update_paddle_push samplePaddleHit (some (JSNum.fin 100)) rfl).1
    (by rw [hdt, hy]), hdt, hx]
  norm_num [clampedVx, samplePaddleHit, sampleGame, sampleBall, samplePaddle]

theorem loadLevel_ball_stuck (brickPattern : Int → Pattern) (g : Game) (level : Int) :
    (loadLevel brickPattern g level).ball_stuck = true := rfl

theorem loadLevel_lastTime (brickPattern : Int → Pattern) (g : Game) (level : Int) :
    (loadLevel brickPattern g level).lastTime = g.lastTime := rfl

theorem frameDt_first (g : Game) (t0 : ℚ) (h : g.lastTime = none) :
    frameDt g (some (JSNum.fin t0)) = JSNum.fin 0 := by
  simp [frameDt, nullish, toNumber, h]

/-- C10: an update with the ball Stuck puts the ball at `paddle.position + (0, -10)` and
leaves the ball's velocity, the bricks collection and the stuck flag unchanged; and the
first `update(t0)` after `loadLevel` on a game with no previous timestamp computes
`dt = 0`, leaves the ball stuck and places it at `paddle.position + (0, -10)`, also when
the argument-less `update()` of `beginPlay` has run in between. -/
theorem update_stuck_ball (g : Game) (newtime : Option JSNum) (h : g.ball_stuck = true) :
    ((g.update newtime).ball.position = g.paddle.position.add ⟨JSNum.fin 0, JSNum.fin (-10)⟩ ∧
      (g.update newtime).ball.velocity = g.ball.velocity ∧
      (g.update newtime).bricks = g.bricks ∧
      (g.update newtime).ball_stuck = true ∧
      (g.update newtime).paddle = g.paddle) ∧
    (∀ (brickPattern : Int → Pattern) (g0 : Game) (level : Int) (t0 : ℚ),
      g0.lastTime = none →
        ((loadLevel brickPattern g0 level).update (some (JSNum.fin t0))).dt = JSNum.fin 0 ∧
        ((loadLevel brickPattern g0 level).update (some (JSNum.fin t0))).ball_stuck = true ∧
        ((loadLevel brickPattern g0 level).update (some (JSNum.fin t0))).ball.position =
          (loadLevel brickPattern g0 level).paddle.position.add
            ⟨JSNum.fin 0, JSNum.fin (-10)⟩ ∧
        (((loadLevel brickPattern g0 level).update none).update (some (JSNum.fin t0))).dt =
          JSNum.fin 0 ∧
        (((loadLevel brickPattern g0 level).update none).update
          (some (JSNum.fin t0))).ball_stuck = true ∧
        (((loadLevel brickPattern g0 level).update none).update
          (some (JSNum.fin t0))).ball.position =
          (loadLevel brickPattern g0 level).paddle.position.add
            ⟨JSNum.fin 0, JSNum.fin (-10)⟩) := by
  constructor
  · rw [update_stuck g newtime h]
    exact ⟨rfl, rfl, rfl, h, rfl⟩
  · intro brickPattern g0 level t0 h0
    have hs := loadLevel_ball_stuck brickPattern g0 level
    have hs2 : ((loadLevel brickPattern g0 level).update none).ball_stuck = true := by
      rw [update_stuck _ _ hs]; rfl
    have hl2 : ((loadLevel brickPattern g0 level).update none).lastTime = none := by
      rw [update_stuck _ _ hs]; rfl
    have hp2 : ((loadLevel brickPattern g0 level).update none).paddle =
        (loadLevel brickPattern g0 level).paddle := by
      rw [update_stuck _ _ hs]; rfl
    refine ⟨?_, ?_, ?_, ?_, ?_, ?_⟩
    · rw [update_stuck _ _ hs]
      exact frameDt_first _ t0 h0
    · rw [update_stuck _ _ hs]; rfl
    · rw [update_stuck _ _ hs]
    · rw [update_stuck _ _ hs2]
      exact frameDt_first _ t0 hl2
    · rw [update_stuck _ _ hs2]; rfl
    · rw [update_stuck _ _ hs2, ← hp2]

theorem update_stuck_ball_witness :
    (loadLevel samplePattern sampleFresh 1).ball_stuck = true ∧
      sampleFresh.lastTime = none ∧
      ((loadLevel samplePattern sampleFresh 1).update (some (JSNum.fin 5000))).dt =
        JSNum.fin 0 ∧
      ((loadLevel samplePattern sampleFresh 1).update (some (JSNum.fin 5000))).ball.position =
        ⟨JSNum.fin 120, JSNum.fin 214⟩ := by
  have hw := update_stuck_ball (loadLevel samplePattern sampleFresh 1)
    (some (JSNum.fin 5000)) rfl
  refine ⟨rfl, rfl, (hw.2 samplePattern sampleFresh 1 5000 rfl).1, ?_⟩
  rw [hw.1.1]
  norm_num [loadLevel, sampleFresh, create, Playfield.create, Playfield.addEntity,
    Point.add, Point.sub]

/-! ## The input handlers -/

/-- C11: `keydown` while the ball is Stuck clears the stuck flag and sets the ball's
velocity to `(paddle_xvel / ball_speed + j, -200)` with `j` equal to -10 or +10 (-10
exactly when the random number is below 0.5) and changes nothing else; `keydown` while
the ball is Launched returns the state unchanged, so a second press is a no-op. -/
theorem keydown_launches (g : Game) (random : JSNum) :
    (g.ball_stuck = true →
      ∃ j, (j = JSNum.fin (-10) ∨ j = JSNum.fin 10) ∧
        (j = JSNum.fin (-10) ↔ JSNum.lt random (JSNum.fin (1/2)) = true) ∧
        g.keydown random =
          { g with ball_stuck := false,
                   ball := { g.ball with velocity :=
                     ⟨g.paddle_xvel / g.ball_speed + j, JSNum.fin (-200)⟩ } }) ∧
    (g.ball_stuck = false → g.keydown random = g) ∧
    (∀ random2, (g.keydown random).keydown random2 = g.keydown random) := by
  have h1 : g.ball_stuck = false → g.keydown random = g := by
    intro h
    simp [keydown, h]
  refine ⟨?_, h1, ?_⟩
  · intro h
    by_cases hr : JSNum.lt random (JSNum.fin (1/2)) = true
    · refine ⟨JSNum.fin (-10), Or.inl rfl, ⟨fun _ => hr, fun _ => rfl⟩, ?_⟩
      unfold keydown
      simp only [h, if_true, if_pos hr]
    · refine ⟨JSNum.fin 10, Or.inr rfl, ?_, ?_⟩
      · constructor
        · intro hj
          injection hj with hq
          norm_num at hq
        · intro h2
          exact absurd h2 hr
      · unfold keydown
        simp only [h, if_true, if_neg hr]
  · intro random2
    cases h : g.ball_stuck
    · rw [h1 h]
      simp [keydown, h]
    · simp [keydown, h]

theorem keydown_launches_witness :
    (loadLevel samplePattern sampleFresh 2).ball_stuck = true ∧
      ((loadLevel samplePattern sampleFresh 2).keydown (JSNum.fin (1/4))).ball_stuck = false ∧
      sampleGame.keydown (JSNum.fin (1/4)) = sampleGame := by
  refine ⟨rfl, ?_, (keydown_launches sampleGame (JSNum.fin (1/4))).2.1 rfl⟩
  obtain ⟨j, _, _, hk⟩ :=
    (keydown_launches (loadLevel samplePattern sampleFresh 2) (JSNum.fin (1/4))).1 rfl
  rw [hk]

/-- C12: for a finite pointer x, a finite paddle width `w` and a finite game width `W`
with `w ≤ W`, after `mousemove` the paddle's centre x lies in `[w/2, W - w/2]`, equals the
pointer x when that is in the interval, equals `W - w/2` when the pointer x is beyond it
and `w/2` when it is below it; the paddle's vertical position, size and the rest of the
state are unchanged. -/
theorem mousemove_clamps_paddle (g : Game) (mousePos : Point) (p w W : ℚ)
    (hp : mousePos.x = JSNum.fin p) (hw : g.paddle.size.x = JSNum.fin w)
    (hW : g.gameSize.x = JSNum.fin W) (hle : w ≤ W) :
    (∃ x : ℚ, (g.mousemove mousePos).paddle.position.x = JSNum.fin x ∧
        w / 2 ≤ x ∧ x ≤ W - w / 2 ∧
        (w / 2 ≤ p → p ≤ W - w / 2 → x = p) ∧
        (W - w / 2 < p → x = W - w / 2) ∧
        (p < w / 2 → x = w / 2)) ∧
      (g.mousemove mousePos).paddle.position.y = g.paddle.position.y ∧
      (g.mousemove mousePos).paddle.size = g.paddle.size ∧
      g.mousemove mousePos =
        { g with paddle := { g.paddle with
            position := ⟨(g.mousemove mousePos).paddle.position.x, g.paddle.position.y⟩ } } := by
  have hx : (g.mousemove mousePos).paddle.position.x =
      JSNum.max (JSNum.fin w / JSNum.fin 2)
        (JSNum.min (JSNum.fin p) (JSNum.fin W - JSNum.fin w / JSNum.fin 2)) := by
    simp [mousemove, Entity.setX, hp, hw, hW]
  refine ⟨?_, rfl, rfl, rfl⟩
  rw [hx]
  have h2 : (2 : ℚ) ≠ 0 := by norm_num
  simp only [JSNum.fin_div_fin, h2, if_false, JSNum.fin_sub_fin, JSNum.min_fin_fin]
  by_cases h1 : W - w / 2 < p
  · simp only [if_pos h1, JSNum.max_fin_fin]
    have h3 : ¬ (W - w / 2 < w / 2) := by linarith
    by_cases h4 : w / 2 < W - w / 2
    · refine ⟨W - w / 2, by simp [h4], by linarith, le_refl _, ?_, ?_, ?_⟩
      · intro _ h6; linarith
      · intro _; rfl
      · intro h6; linarith
    · refine ⟨w / 2, by simp [h4], le_refl _, by linarith, ?_, ?_, ?_⟩
      · intro _ h6; linarith
      · intro _; linarith
      · intro _; rfl
  · simp only [if_neg h1, JSNum.max_fin_fin]
    by_cases h4 : w / 2 < p
    · refine ⟨p, by simp [h4], by linarith, by linarith, ?_, ?_, ?_⟩
      · intro _ _; rfl
      · intro h6; exact absurd h6 h1
      · intro h6; linarith
    · refine ⟨w / 2, by simp [h4], le_refl _, by linarith, ?_, ?_, ?_⟩
      · intro h5 _; linarith
      · intro h6; exact absurd h6 h1
      · intro _; rfl

theorem mousemove_clamps_paddle_witness :
    (⟨JSNum.fin 300, JSNum.fin 7⟩ : Point).x = JSNum.fin 300 ∧
      sampleGame.paddle.size.x = JSNum.fin 32 ∧ sampleGame.gameSize.x = JSNum.fin 240 ∧
      (32 : ℚ) ≤ 240 ∧
      (sampleGame.mousemove ⟨JSNum.fin 300, JSNum.fin 7⟩).paddle.position =
        ⟨JSNum.fin 224, JSNum.fin 224⟩ := by
  obtain ⟨⟨x, hx, _, _, _, hbeyond, _⟩, hy, _, _⟩ :=
    mousemove_clamps_paddle sampleGame ⟨JSNum.fin 300, JSNum.fin 7⟩ 300 32 240 rfl rfl rfl
      (by norm_num)
  refine ⟨rfl, rfl, rfl, by norm_num, ?_⟩
  have e : (sampleGame.mousemove ⟨JSNum.fin 300, JSNum.fin 7⟩).paddle.position =
      ⟨(sampleGame.mousemove ⟨JSNum.fin 300, JSNum.fin 7⟩).paddle.position.x,
       (sampleGame.mousemove ⟨JSNum.fin 300, JSNum.fin 7⟩).paddle.position.y⟩ := rfl
  rw [e, hx, hy, hbeyond (by norm_num)]
  norm_num [sampleGame, samplePaddle]

theorem update_ball_stuck (g : Game) (newtime : Option JSNum) :
    (g.update newtime).ball_stuck = g.ball_stuck := by
  cases h : g.ball_stuck
  · rw [update_launched g newtime h]
    show (launchedStep (tick g newtime) (frameDt g newtime)).ball_stuck = false
    rw [launchedStep_ball_stuck]
    exact h
  · rw [update_stuck g newtime h]
    exact h

theorem step_stays_launched (g : Game) (e : Event) (h : g.ball_stuck = false) :
    (step g e).ball_stuck = false := by
  cases e with
  | update newtime =>
    show (g.update newtime).ball_stuck = false
    rw [update_ball_stuck]
    exact h
  | keydown random =>
    show (g.keydown random).ball_stuck = false
    simp [keydown, h]
  | mousemove mousePos => exact h

/-- C18: a step by `update` (any timestamp), `keydown` or `mousemove` (any pointer
position) taken from a state in which the ball is Launched ends in a state in which the
ball is Launched, and so does every sequence of such steps; `loadLevel` sets the stuck
flag. -/
theorem launched_stays_launched (g : Game) (events : List Event) (h : g.ball_stuck = false) :
    (∀ e, (step g e).ball_stuck = false) ∧
      (run g events).ball_stuck = false ∧
      (∀ (brickPattern : Int → Pattern) (level : Int),
        (loadLevel brickPattern g level).ball_stuck = true) := by
  refine ⟨fun e => step_stays_launched g e h, ?_, fun _ _ => rfl⟩
  induction events generalizing g with
  | nil => exact h
  | cons e rest ih =>
    show (run (step g e) rest).ball_stuck = false
    exact ih (step g e) (step_stays_launched g e h)

theorem launched_stays_launched_witness :
    sampleStrike.ball_stuck = false ∧
      (run sampleStrike
        [.update (some (JSNum.fin 100)), .keydown (JSNum.fin (3/4)),
          .mousemove ⟨JSNum.fin 7, JSNum.fin 7⟩, .update none]).ball_stuck = false :=
  ⟨rfl, (launched_stays_launched sampleStrike _ rfl).2.1⟩

/-! ## `beginPlay` -/

theorem beginPlay_raises_iff (g : Game) :
    (∃ msg, beginPlay g = Except.error msg) ↔ (g.level = none ∨ g.level = some 0) := by
  unfold beginPlay
  by_cases h : g.level = none ∨ g.level = some 0
  · simp [h]
  · simp [h]

theorem loadLevel_level (brickPattern : Int → Pattern) (g : Game) (level : Int) :
    (loadLevel brickPattern g level).level = some level := rfl

/-- C17, on the code: `beginPlay` raises on a game on which `loadLevel` was never called,
it does not raise after `loadLevel(n)` with `n ≠ 0`, and it raises after `loadLevel(0)`,
with the message that no level was loaded. -/
theorem beginPlay_raises_after_level_zero :
    beginPlay sampleFresh = Except.error "attempt to start game without loading level!" ∧
      (∀ (brickPattern : Int → Pattern) (g : Game) (n : Int), n ≠ 0 →
        beginPlay (loadLevel brickPattern g n) =
          Except.ok ({ loadLevel brickPattern g n with running := true }.update none)) ∧
      (∀ (brickPattern : Int → Pattern) (g : Game),
        beginPlay (loadLevel brickPattern g 0) =
          Except.error "attempt to start game without loading level!") ∧
      (loadLevel samplePattern sampleFresh 0).level = some 0 ∧
      beginPlay (loadLevel samplePattern sampleFresh 0) =
        Except.error "attempt to start game without loading level!" := by
  refine ⟨rfl, ?_, ?_, rfl, ?_⟩
  · intro brickPattern g n hn
    unfold beginPlay
    simp [loadLevel_level, hn]
  · intro brickPattern g
    unfold beginPlay
    simp [loadLevel_level]
  · unfold beginPlay
    simp [loadLevel_level]

/-! ## The level grid -/

theorem foldl_addBrick (sp sz gap : Point) (off : JSNum) (kindOf : Nat → Nat → String)
    (cs : List (Nat × Nat)) (pf : Playfield) (bs : List Entity) :
    (cs.foldl (fun acc c => addBrick sp sz gap off kindOf c.2 c.1 acc) (pf, bs)).2 =
        bs ++ ((cs.filter (fun c => decide (kindOf c.1 c.2 ≠ "empty"))).enumFrom pf.nextId).map
          (fun ic => codeBrick sp sz gap off (kindOf ic.2.1 ic.2.2) ic.1 ic.2.1 ic.2.2) ∧
      (cs.foldl (fun acc c => addBrick sp sz gap off kindOf c.2 c.1 acc) (pf, bs)).1.size =
        pf.size := by
  induction cs generalizing pf bs with
  | nil => simp
  | cons c rest ih =>
    rw [List.foldl_cons]
    by_cases hk : kindOf c.1 c.2 = "empty"
    · have hstep : addBrick sp sz gap off kindOf c.2 c.1 (pf, bs) = (pf, bs) := by
        simp [addBrick, hk]
      rw [hstep]
      obtain ⟨h1, h2⟩ := ih pf bs
      refine ⟨?_, h2⟩
      rw [h1]
      simp [List.filter_cons, hk]
    · have hstep : addBrick sp sz gap off kindOf c.2 c.1 (pf, bs) =
          ((⟨pf.size, pf.entities ++ [pf.nextId], pf.nextId + 1⟩ : Playfield),
            bs ++ [codeBrick sp sz gap off (kindOf c.1 c.2) pf.nextId c.1 c.2]) := by
        simp [addBrick, hk, Playfield.addEntity, codeBrick]
      rw [hstep]
      obtain ⟨h1, h2⟩ := ih (⟨pf.size, pf.entities ++ [pf.nextId], pf.nextId + 1⟩ : Playfield)
        (bs ++ [codeBrick sp sz gap off (kindOf c.1 c.2) pf.nextId c.1 c.2])
      refine ⟨?_, h2⟩
      rw [h1]
      simp [List.filter_cons, hk]

theorem buildBricks_eq_foldl_cells (sp sz gap : Point) (off : JSNum) (pattern : Pattern)
    (pf : Playfield) :
    buildBricks sp sz gap off pattern pf =
      (cells pattern.numBricks.1 pattern.numBricks.2).foldl
        (fun acc c => addBrick sp sz gap off pattern.getBrickKind c.2 c.1 acc) (pf, []) := by
  unfold buildBricks cells
  rw [List.flatMap_def, List.foldl_flatten, List.foldl_map]
  congr 1
  funext acc iy
  rw [List.foldl_map]

theorem loadLevel_bricks_eq (brickPattern : Int → Pattern) (g : Game) (level : Int) :
    (loadLevel brickPattern g level).bricks =
      (((cells (brickPattern level).numBricks.1 (brickPattern level).numBricks.2).filter
          (fun c => decide ((brickPattern level).getBrickKind c.1 c.2 ≠ "empty"))).enumFrom
          (g.playfield.nextId + 2)).map
        (fun ic => codeBrick (brickSpacing g (brickPattern level))
          (brickSize g (brickPattern level)) ⟨JSNum.fin 3, JSNum.fin 3⟩ (JSNum.fin 10)
          ((brickPattern level).getBrickKind ic.2.1 ic.2.2) ic.1 ic.2.1 ic.2.2) := by
  have h : (loadLevel brickPattern g level).bricks =
      (buildBricks (brickSpacing g (brickPattern level)) (brickSize g (brickPattern level))
        ⟨JSNum.fin 3, JSNum.fin 3⟩ (JSNum.fin 10) (brickPattern level)
        (⟨g.playfield.size,
          g.playfield.entities ++ [g.playfield.nextId] ++ [g.playfield.nextId + 1],
          g.playfield.nextId + 1 + 1⟩ : Playfield)).2 := rfl
  rw [h, buildBricks_eq_foldl_cells, (foldl_addBrick _ _ _ _ _ _ _ _).1]
  simp

theorem loadLevel_playfield_size (brickPattern : Int → Pattern) (g : Game) (level : Int) :
    (loadLevel brickPattern g level).playfield.size = g.playfield.size := by
  have h : (loadLevel brickPattern g level).playfield =
      (buildBricks (brickSpacing g (brickPattern level)) (brickSize g (brickPattern level))
        ⟨JSNum.fin 3, JSNum.fin 3⟩ (JSNum.fin 10) (brickPattern level)
        (⟨g.playfield.size,
          g.playfield.entities ++ [g.playfield.nextId] ++ [g.playfield.nextId + 1],
          g.playfield.nextId + 1 + 1⟩ : Playfield)).1 := rfl
  rw [h, buildBricks_eq_foldl_cells, (foldl_addBrick _ _ _ _ _ _ _ _).2]

/-! ## The initial placement of the ball -/

theorem loadLevel_paddle_ball (brickPattern : Int → Pattern) (g : Game) (level : Int)
    (W H : ℚ) (hsize : g.gameSize = ⟨JSNum.fin W, JSNum.fin H⟩) :
    (loadLevel brickPattern g level).paddle.position = ⟨JSNum.fin (W / 2), JSNum.fin (H - 16)⟩ ∧
      (loadLevel brickPattern g level).paddle.size = ⟨JSNum.fin 32, JSNum.fin 8⟩ ∧
      (loadLevel brickPattern g level).ball.position = ⟨JSNum.fin W, JSNum.fin 18⟩ ∧
      (loadLevel brickPattern g level).ball.size = ⟨JSNum.fin 8, JSNum.fin 8⟩ := by
  have hp : (loadLevel brickPattern g level).paddle.position =
      g.gameSize.sub ⟨g.gameSize.x / JSNum.fin 2, JSNum.fin 16⟩ := rfl
  have hb : (loadLevel brickPattern g level).ball.position =
      g.gameSize.sub ⟨JSNum.fin 0,
        (g.gameSize.sub ⟨g.gameSize.x / JSNum.fin 2, JSNum.fin 16⟩).y - JSNum.fin 2⟩ := rfl
  refine ⟨?_, rfl, ?_, rfl⟩
  · rw [hp, hsize]
    norm_num [Point.sub]
    ring
  · rw [hb, hsize]
    norm_num [Point.sub]
    ring

/-- C16, on the code: after `loadLevel` on the 240x240 field the ball is flagged stuck and
has size 8x8, the paddle is at `(120, 224)` with size 32x8, and the ball is at `(240, 18)`:
its centre x is not the paddle's centre x and its rectangle is not within the playfield
rectangle. -/
theorem loadLevel_ball_placement :
    (loadLevel samplePattern sampleFresh 2).ball_stuck = true ∧
      (loadLevel samplePattern sampleFresh 2).ball.size = ⟨JSNum.fin 8, JSNum.fin 8⟩ ∧
      (loadLevel samplePattern sampleFresh 2).paddle.position = ⟨JSNum.fin 120, JSNum.fin 224⟩ ∧
      (loadLevel samplePattern sampleFresh 2).paddle.size = ⟨JSNum.fin 32, JSNum.fin 8⟩ ∧
      (loadLevel samplePattern sampleFresh 2).ball.position = ⟨JSNum.fin 240, JSNum.fin 18⟩ ∧
      (loadLevel samplePattern sampleFresh 2).ball.position.x ≠
        (loadLevel samplePattern sampleFresh 2).paddle.position.x ∧
      (loadLevel samplePattern sampleFresh 2).ball.rect.within
        (loadLevel samplePattern sampleFresh 2).playfield.rect = false := by
  obtain ⟨hpp, hps, hbp, hbs⟩ :=
    loadLevel_paddle_ball samplePattern sampleFresh 2 240 240 rfl
  have hpl : (loadLevel samplePattern sampleFresh 2).playfield.size =
      ⟨JSNum.fin 240, JSNum.fin 240⟩ := by
    rw [loadLevel_playfield_size]
    rfl
  refine ⟨rfl, hbs, ?_, hps, hbp, ?_, ?_⟩
  · rw [hpp]; norm_num
  · rw [hbp, hpp]
    intro h
    injection h with hq
    norm_num at hq
  · simp only [Entity.rect, Playfield.rect, hbp, hbs, hpl]
    norm_num [Rect.centered, Rect.within, Point.sub, Point.div, Point.scalar]

/-! ## The bricks of the level -/

theorem brickSpacing_finite (g : Game) (pattern : Pattern) (W : ℚ)
    (hW : g.gameSize.x = JSNum.fin W) (hnx : 1 ≤ pattern.numBricks.1) :
    brickSpacing g pattern =
      ⟨JSNum.fin ((W - 2 * 3) / pattern.numBricks.1), JSNum.fin (12 + 3)⟩ := by
  have hne : (pattern.numBricks.1 : ℚ) ≠ 0 := by
    have : (0 : ℚ) < pattern.numBricks.1 := by exact_mod_cast hnx
    exact ne_of_gt this
  unfold brickSpacing
  rw [hW]
  simp only [JSNum.fin_mul_fin, JSNum.fin_sub_fin, JSNum.fin_div_fin, if_neg hne,
    JSNum.fin_add_fin]
  norm_num

theorem codeBrick_eq_gridBrick (g : Game) (pattern : Pattern) (W : ℚ)
    (hW : g.gameSize.x = JSNum.fin W) (hnx : 1 ≤ pattern.numBricks.1)
    (kind : String) (id ix iy : Nat) :
    codeBrick (brickSpacing g pattern) (brickSize g pattern) ⟨JSNum.fin 3, JSNum.fin 3⟩
        (JSNum.fin 10) kind id ix iy =
      gridBrick W pattern.numBricks.1 kind id ix iy := by
  have h2 : (2 : ℚ) ≠ 0 := by norm_num
  unfold codeBrick gridBrick brickSize
  rw [brickSpacing_finite g pattern W hW hnx]
  simp only [Point.mul, Point.add, Point.div, JSNum.fin_mul_fin, JSNum.fin_add_fin,
    JSNum.fin_sub_fin, JSNum.fin_div_fin, if_neg h2]
  congr 3
  · ring
  · ring

theorem loadLevel_bricks_grid (brickPattern : Int → Pattern) (g : Game) (level : Int) (W : ℚ)
    (hW : g.gameSize.x = JSNum.fin W) (hnx : 1 ≤ (brickPattern level).numBricks.1) :
    (loadLevel brickPattern g level).bricks =
      (((cells (brickPattern level).numBricks.1 (brickPattern level).numBricks.2).filter
          (fun c => decide ((brickPattern level).getBrickKind c.1 c.2 ≠ "empty"))).enumFrom
          (g.playfield.nextId + 2)).map
        (fun ic => gridBrick W (brickPattern level).numBricks.1
          ((brickPattern level).getBrickKind ic.2.1 ic.2.2) ic.1 ic.2.1 ic.2.2) := by
  rw [loadLevel_bricks_eq]
  apply List.map_congr_left
  intro ic _
  exact codeBrick_eq_gridBrick g (brickPattern level) W hW hnx _ _ _ _

theorem codeBrick_eq_cellBrick (g : Game) (pattern : Pattern)
    (kind : String) (id ix iy : Nat) :
    codeBrick (brickSpacing g pattern) (brickSize g pattern) ⟨JSNum.fin 3, JSNum.fin 3⟩
        (JSNum.fin 10) kind id ix iy =
      cellBrick g.gameSize.x pattern.numBricks.1 kind id ix iy := by
  have h6 : JSNum.fin 3 * JSNum.fin 2 = JSNum.fin 2 * JSNum.fin 3 := JSNum.mul_comm_js _ _
  unfold codeBrick cellBrick brickSize brickSpacing
  simp only [Point.mul, Point.add, Point.div, JSNum.add_fin_zero, h6]
  rw [JSNum.mul_comm_js _ (JSNum.fin ix), JSNum.mul_comm_js _ (JSNum.fin iy)]

/-- C13: for a pattern with `numBricks.x ≥ 1` whose brick width `spacing.x - 3` is
positive (the size `addEntity` requires), the bricks collection after `loadLevel` is, in
order, the row-major enumeration of the cells whose kind is not "empty", one brick per
such cell and none for an empty cell, each carrying the cell's kind, the size
`(spacing.x - 3, 12)` and the centre
`(ix*spacing.x + 3 + spacing.x/2, iy*spacing.y + 3 + 10 + spacing.y/2)` with
`spacing.x = (gameWidth - 2*3)/numBricks.x` and `spacing.y = 12 + 3`, computed with the
code's operators; the identities are consecutive, every brick has a positive size and
the divisor `numBricks.x` is not zero. -/
theorem loadLevel_builds_grid (brickPattern : Int → Pattern) (g : Game) (level : Int)
    (hnx : 1 ≤ (brickPattern level).numBricks.1)
    (hpos : JSNum.lt (JSNum.fin 0)
      ((g.gameSize.x - JSNum.fin 2 * JSNum.fin 3) / JSNum.fin (brickPattern level).numBricks.1
        - JSNum.fin 3) = true) :
    (loadLevel brickPattern g level).bricks =
        (((cells (brickPattern level).numBricks.1 (brickPattern level).numBricks.2).filter
            (fun c => decide ((brickPattern level).getBrickKind c.1 c.2 ≠ "empty"))).enumFrom
            (g.playfield.nextId + 2)).map
          (fun ic => cellBrick g.gameSize.x (brickPattern level).numBricks.1
            ((brickPattern level).getBrickKind ic.2.1 ic.2.2) ic.1 ic.2.1 ic.2.2) ∧
      (loadLevel brickPattern g level).bricks.length =
        ((cells (brickPattern level).numBricks.1 (brickPattern level).numBricks.2).filter
          (fun c => decide ((brickPattern level).getBrickKind c.1 c.2 ≠ "empty"))).length ∧
      (∀ ix iy, (ix, iy) ∈ cells (brickPattern level).numBricks.1
          (brickPattern level).numBricks.2 ↔
        ix < (brickPattern level).numBricks.1 ∧ iy < (brickPattern level).numBricks.2) ∧
      (∀ b ∈ (loadLevel brickPattern g level).bricks,
        EntitySpec.positiveSize ⟨b.size, b.position, b.kind⟩ = true) ∧
      JSNum.fin (brickPattern level).numBricks.1 ≠ JSNum.fin 0 := by
  have hb := loadLevel_bricks_eq brickPattern g level
  have hgrid : (loadLevel brickPattern g level).bricks =
      (((cells (brickPattern level).numBricks.1 (brickPattern level).numBricks.2).filter
          (fun c => decide ((brickPattern level).getBrickKind c.1 c.2 ≠ "empty"))).enumFrom
          (g.playfield.nextId + 2)).map
        (fun ic => cellBrick g.gameSize.x (brickPattern level).numBricks.1
          ((brickPattern level).getBrickKind ic.2.1 ic.2.2) ic.1 ic.2.1 ic.2.2) := by
    rw [hb]
    apply List.map_congr_left
    intro ic _
    exact codeBrick_eq_cellBrick g (brickPattern level) _ _ _ _
  refine ⟨hgrid, ?_, ?_, ?_, ?_⟩
  · rw [hb]
    simp
  · intro ix iy
    simp only [cells, List.mem_flatMap, List.mem_map, List.mem_range, Prod.mk.injEq]
    constructor
    · rintro ⟨y, hy, x, hx, rfl, rfl⟩
      exact ⟨hx, hy⟩
    · rintro ⟨h1, h2⟩
      exact ⟨iy, h2, ix, h1, rfl, rfl⟩
  · intro b hbm
    rw [hgrid, List.mem_map] at hbm
    obtain ⟨ic, _, rfl⟩ := hbm
    simp only [EntitySpec.positiveSize, cellBrick, hpos, Bool.true_and]
    simp
  · intro h0
    injection h0 with hq
    have : (0 : ℚ) < (brickPattern level).numBricks.1 := by exact_mod_cast hnx
    linarith

theorem loadLevel_builds_grid_witness :
    1 ≤ (sampleGrid 2).numBricks.1 ∧
      JSNum.lt (JSNum.fin 0)
        ((sampleFresh.gameSize.x - JSNum.fin 2 * JSNum.fin 3)
          / JSNum.fin (sampleGrid 2).numBricks.1 - JSNum.fin 3) = true ∧
      (loadLevel sampleGrid sampleFresh 2).bricks =
        [⟨2, ⟨JSNum.fin 42, JSNum.fin (41/2)⟩, ⟨JSNum.fin 75, JSNum.fin 12⟩,
            ⟨JSNum.fin 0, JSNum.fin 0⟩, some "solid"⟩,
         ⟨3, ⟨JSNum.fin 198, JSNum.fin (41/2)⟩, ⟨JSNum.fin 75, JSNum.fin 12⟩,
            ⟨JSNum.fin 0, JSNum.fin 0⟩, some "solid"⟩,
         ⟨4, ⟨JSNum.fin 42, JSNum.fin (71/2)⟩, ⟨JSNum.fin 75, JSNum.fin 12⟩,
            ⟨JSNum.fin 0, JSNum.fin 0⟩, some "normal"⟩,
         ⟨5, ⟨JSNum.fin 120, JSNum.fin (71/2)⟩, ⟨JSNum.fin 75, JSNum.fin 12⟩,
            ⟨JSNum.fin 0, JSNum.fin 0⟩, some "normal"⟩,
         ⟨6, ⟨JSNum.fin 198, JSNum.fin (71/2)⟩, ⟨JSNum.fin 75, JSNum.fin 12⟩,
            ⟨JSNum.fin 0, JSNum.fin 0⟩, some "normal"⟩] := by
  have hpos : JSNum.lt (JSNum.fin 0)
      ((sampleFresh.gameSize.x - JSNum.fin 2 * JSNum.fin 3)
        / JSNum.fin (sampleGrid 2).numBricks.1 - JSNum.fin 3) = true := by
    norm_num [sampleFresh, create, sampleGrid]
  refine ⟨by decide, hpos, ?_⟩
  rw [(loadLevel_builds_grid sampleGrid sampleFresh 2 (by decide) hpos).1]
  simp [cells, sampleGrid, sampleFresh, create, Playfield.create, List.range_succ,
    List.filter_cons, List.enumFrom, cellBrick]
  norm_num

/-! ## The degenerate grid -/

theorem cells_eq_nil (nx ny : Nat) (h : nx = 0 ∨ ny = 0) : cells nx ny = [] := by
  rcases h with h | h
  · subst h
    simp [cells]
  · subst h
    simp [cells]

theorem loadLevel_playfield_of_no_cells (brickPattern : Int → Pattern) (g : Game) (level : Int)
    (h : (brickPattern level).numBricks.1 = 0 ∨ (brickPattern level).numBricks.2 = 0) :
    (loadLevel brickPattern g level).playfield =
      ⟨g.playfield.size,
        g.playfield.entities ++ [g.playfield.nextId] ++ [g.playfield.nextId + 1],
        g.playfield.nextId + 1 + 1⟩ := by
  have hp : (loadLevel brickPattern g level).playfield =
      (buildBricks (brickSpacing g (brickPattern level)) (brickSize g (brickPattern level))
        ⟨JSNum.fin 3, JSNum.fin 3⟩ (JSNum.fin 10) (brickPattern level)
        (⟨g.playfield.size,
          g.playfield.entities ++ [g.playfield.nextId] ++ [g.playfield.nextId + 1],
          g.playfield.nextId + 1 + 1⟩ : Playfield)).1 := rfl
  rw [hp, buildBricks_eq_foldl_cells, cells_eq_nil _ _ h]
  rfl

/-- C15, as stated, fails: for the 0x3 pattern on the 240x240 field the divisor on line 55
is zero and the horizontal spacing is `Infinity`. -/
theorem loadLevel_divides_by_zero :
    (sampleNoColumns 1).numBricks.1 = 0 ∧
      JSNum.fin 0 ∈ loadLevelDivisors sampleNoColumns sampleFresh 1 ∧
      brickSpacing sampleFresh (sampleNoColumns 1) = ⟨JSNum.posInf, JSNum.fin 15⟩ ∧
      ¬ (∀ d ∈ loadLevelDivisors sampleNoColumns sampleFresh 1, d ≠ JSNum.fin 0) := by
  have hmem : JSNum.fin 0 ∈ loadLevelDivisors sampleNoColumns sampleFresh 1 := by
    simp [loadLevelDivisors, sampleNoColumns]
  refine ⟨rfl, hmem, ?_, ?_⟩
  · norm_num [brickSpacing, sampleNoColumns, sampleFresh, create]
  · intro h
    exact h _ hmem rfl

/-- C15, amended: for a pattern with `numBricks.x = 0` or `numBricks.y = 0`, `loadLevel`
returns with an empty bricks collection, the paddle and the ball created and registered;
it divides by no zero when `numBricks.x ≥ 1`, and when `numBricks.x = 0` its divisors are
`2` and the zero of line 55. -/
theorem loadLevel_degenerate_grid (brickPattern : Int → Pattern) (g : Game) (level : Int)
    (h : (brickPattern level).numBricks.1 = 0 ∨ (brickPattern level).numBricks.2 = 0) :
    (loadLevel brickPattern g level).bricks = [] ∧
      (loadLevel brickPattern g level).paddle.id = g.playfield.nextId ∧
      (loadLevel brickPattern g level).paddle.size = ⟨JSNum.fin 32, JSNum.fin 8⟩ ∧
      (loadLevel brickPattern g level).ball.id = g.playfield.nextId + 1 ∧
      (loadLevel brickPattern g level).ball.size = ⟨JSNum.fin 8, JSNum.fin 8⟩ ∧
      (loadLevel brickPattern g level).playfield.entities =
        g.playfield.entities ++ [g.playfield.nextId] ++ [g.playfield.nextId + 1] ∧
      (1 ≤ (brickPattern level).numBricks.1 →
        ∀ d ∈ loadLevelDivisors brickPattern g level, d ≠ JSNum.fin 0) ∧
      ((brickPattern level).numBricks.1 = 0 →
        loadLevelDivisors brickPattern g level = [JSNum.fin 2, JSNum.fin 0]) := by
  have hb : (loadLevel brickPattern g level).bricks = [] := by
    rw [loadLevel_bricks_eq, cells_eq_nil _ _ h]
    rfl
  refine ⟨hb, rfl, rfl, rfl, rfl, ?_, ?_, ?_⟩
  · rw [loadLevel_playfield_of_no_cells brickPattern g level h]
  · intro hnx d hd
    simp only [loadLevelDivisors, hb, List.length_nil, Nat.mul_zero, List.replicate_zero,
      List.append_nil, List.mem_cons, List.mem_singleton, List.not_mem_nil, or_false] at hd
    rcases hd with hd | hd
    · rw [hd]
      intro h2
      injection h2 with h3
      norm_num at h3
    · rw [hd]
      intro h2
      injection h2 with h3
      have : (0 : ℚ) < (brickPattern level).numBricks.1 := by exact_mod_cast hnx
      linarith
  · intro hnx
    simp [loadLevelDivisors, hb, hnx]

theorem loadLevel_degenerate_grid_witness :
    ((sampleNoColumns 1).numBricks.1 = 0 ∨ (sampleNoColumns 1).numBricks.2 = 0) ∧
      (loadLevel sampleNoColumns sampleFresh 1).bricks = [] ∧
      (loadLevel sampleNoColumns sampleFresh 1).playfield.entities = [0, 1] := by
  have hw := loadLevel_degenerate_grid sampleNoColumns sampleFresh 1 (Or.inl rfl)
  refine ⟨Or.inl rfl, hw.1, ?_⟩
  rw [hw.2.2.2.2.2.1]
  rfl

/-! ## The geometry of the grid -/

theorem gridBrick_no_overlap (W : ℚ) (nx : Nat) (k1 k2 : String) (id1 id2 : Nat)
    (c1 c2 : Nat × Nat) (hne : c1 ≠ c2) :
    (gridBrick W nx k1 id1 c1.1 c1.2).rect.overlaps (gridBrick W nx k2 id2 c2.1 c2.2).rect =
      false := by
  have h2 : (2 : ℚ) ≠ 0 := by norm_num
  simp only [Entity.rect, Rect.centered, Rect.overlaps, gridBrick, Point.sub, Point.div,
    Point.scalar, JSNum.fin_div_fin, if_neg h2, JSNum.fin_sub_fin, JSNum.fin_add_fin,
    JSNum.lt_fin_fin]
  rw [Bool.eq_false_iff]
  intro hall
  simp only [Bool.and_eq_true, decide_eq_true_eq] at hall
  obtain ⟨⟨⟨hx1, hx2⟩, hy1⟩, hy2⟩ := hall
  by_cases hy : c1.2 = c2.2
  · have hx : c1.1 ≠ c2.1 := by
      intro hx
      exact hne (Prod.ext hx hy)
    rcases Nat.lt_or_gt_of_ne hx with hlt | hgt
    · have hk : (c1.1 : ℚ) + 1 ≤ c2.1 := by exact_mod_cast hlt
      by_cases hs : 0 ≤ (W - 2 * 3) / nx
      · nlinarith [mul_nonneg (sub_nonneg.mpr hk) hs]
      · have hs2 : (W - 2 * 3) / nx < 0 := lt_of_not_ge hs
        have hc : (0 : ℚ) ≤ c1.1 := Nat.cast_nonneg _
        nlinarith [mul_nonneg (sub_nonneg.mpr hk) (le_of_lt (neg_pos.mpr hs2))]
    · have hk : (c2.1 : ℚ) + 1 ≤ c1.1 := by exact_mod_cast hgt
      by_cases hs : 0 ≤ (W - 2 * 3) / nx
      · nlinarith [mul_nonneg (sub_nonneg.mpr hk) hs]
      · have hs2 : (W - 2 * 3) / nx < 0 := lt_of_not_ge hs
        nlinarith [mul_nonneg (sub_nonneg.mpr hk) (le_of_lt (neg_pos.mpr hs2))]
  · rcases Nat.lt_or_gt_of_ne hy with hlt | hgt
    · have hk : (c1.2 : ℚ) + 1 ≤ c2.2 := by exact_mod_cast hlt
      linarith
    · have hk : (c2.2 : ℚ) + 1 ≤ c1.2 := by exact_mod_cast hgt
      linarith

theorem cells_pairwise_ne (nx ny : Nat) : (cells nx ny).Pairwise (fun c1 c2 => c1 ≠ c2) := by
  unfold cells
  rw [List.pairwise_flatMap]
  constructor
  · intro iy _
    rw [List.pairwise_map]
    exact (List.nodup_range nx).imp (fun hab h => hab (congrArg Prod.fst h))
  · refine (List.nodup_range ny).imp ?_
    intro y1 y2 hy c1 hc1 c2 hc2 h
    rw [List.mem_map] at hc1 hc2
    obtain ⟨x1, _, rfl⟩ := hc1
    obtain ⟨x2, _, rfl⟩ := hc2
    exact hy (congrArg Prod.snd h)

theorem enumFrom_pairwise_snd {α : Type} (R : α → α → Prop) (l : List α) (k : Nat)
    (h : l.Pairwise R) : (l.enumFrom k).Pairwise (fun a b => R a.2 b.2) := by
  have hm : (List.map Prod.snd (l.enumFrom k)).Pairwise R := by
    rw [List.enumFrom_map_snd]
    exact h
  exact List.pairwise_map.mp hm

/-- C20: on a field of finite width, for a pattern with `numBricks.x ≥ 1` (whatever the
sign of the brick width), any two bricks at distinct places of the bricks collection built by
`loadLevel` have rectangles that do not overlap, in either order. -/
theorem loadLevel_bricks_do_not_overlap (brickPattern : Int → Pattern) (g : Game)
    (level : Int) (W : ℚ)
    (hW : g.gameSize.x = JSNum.fin W) (hnx : 1 ≤ (brickPattern level).numBricks.1) :
    (loadLevel brickPattern g level).bricks.Pairwise
        (fun a b => a.rect.overlaps b.rect = false ∧ b.rect.overlaps a.rect = false) ∧
      (∀ (i j : Nat) (hi : i < (loadLevel brickPattern g level).bricks.length)
          (hj : j < (loadLevel brickPattern g level).bricks.length), i ≠ j →
        ((loadLevel brickPattern g level).bricks.get ⟨i, hi⟩).rect.overlaps
          ((loadLevel brickPattern g level).bricks.get ⟨j, hj⟩).rect = false) := by
  have hp : (loadLevel brickPattern g level).bricks.Pairwise
      (fun a b => a.rect.overlaps b.rect = false ∧ b.rect.overlaps a.rect = false) := by
    rw [loadLevel_bricks_grid brickPattern g level W hW hnx]
    apply List.Pairwise.map _ _
      (enumFrom_pairwise_snd _ _ _ ((cells_pairwise_ne _ _).filter _))
    intro a b hab
    exact ⟨gridBrick_no_overlap W _ _ _ _ _ a.2 b.2 hab,
      gridBrick_no_overlap W _ _ _ _ _ b.2 a.2 (fun h => hab h.symm)⟩
  refine ⟨hp, ?_⟩
  intro i j hi hj hij
  have hget := List.pairwise_iff_getElem.mp hp
  rcases Nat.lt_or_gt_of_ne hij with hlt | hgt
  · exact (hget i j hi hj hlt).1
  · exact (hget j i hj hi hgt).2

theorem loadLevel_bricks_do_not_overlap_witness :
    sampleFresh.gameSize.x = JSNum.fin 240 ∧ 1 ≤ (samplePattern 2).numBricks.1 ∧
      (loadLevel samplePattern sampleFresh 2).bricks.Pairwise
        (fun a b => a.rect.overlaps b.rect = false ∧ b.rect.overlaps a.rect = false) :=
  ⟨rfl, by decide,
    (loadLevel_bricks_do_not_overlap samplePattern sampleFresh 2 240 rfl (by decide)).1⟩

/-! ## The divisor `dt` -/

theorem removeStruck_timing (g : Game) (c : Collision) :
    (removeStruck g c).lastTime = g.lastTime ∧ (removeStruck g c).paddle = g.paddle ∧
      (removeStruck g c).last_paddle_x = g.last_paddle_x ∧ (removeStruck g c).dt = g.dt := by
  unfold removeStruck
  split
  · split
    · split <;> exact ⟨rfl, rfl, rfl, rfl⟩
    · exact ⟨rfl, rfl, rfl, rfl⟩
  · exact ⟨rfl, rfl, rfl, rfl⟩

theorem paddlePush_timing (g : Game) (c : Collision) :
    (paddlePush g c).lastTime = g.lastTime ∧ (paddlePush g c).paddle = g.paddle ∧
      (paddlePush g c).last_paddle_x = g.last_paddle_x ∧ (paddlePush g c).dt = g.dt := by
  unfold paddlePush
  split <;> exact ⟨rfl, rfl, rfl, rfl⟩

theorem launchedStep_timing (g : Game) (dt : JSNum) :
    (launchedStep g dt).lastTime = g.lastTime ∧ (launchedStep g dt).paddle = g.paddle ∧
      (launchedStep g dt).last_paddle_x = g.last_paddle_x ∧ (launchedStep g dt).dt = g.dt := by
  unfold launchedStep
  rw [resolveAxes_eq]
  simp only [List.foldl_cons, List.foldl_nil]
  show (removeStruck (removeStruck _ (collisionX g dt)) (collisionY g dt)).lastTime = _ ∧
    (removeStruck (removeStruck _ (collisionX g dt)) (collisionY g dt)).paddle = _ ∧
    (removeStruck (removeStruck _ (collisionX g dt)) (collisionY g dt)).last_paddle_x = _ ∧
    (removeStruck (removeStruck _ (collisionX g dt)) (collisionY g dt)).dt = _
  obtain ⟨a1, a2, a3, a4⟩ := removeStruck_timing
    (removeStruck (paddlePush _ (collisionY g dt)) (collisionX g dt)) (collisionY g dt)
  obtain ⟨b1, b2, b3, b4⟩ :=
    removeStruck_timing (paddlePush _ (collisionY g dt)) (collisionX g dt)
  obtain ⟨c1, c2, c3, c4⟩ := paddlePush_timing _ (collisionY g dt)
  rw [a1, a2, a3, a4, b1, b2, b3, b4, c1, c2, c3, c4]
  exact ⟨rfl, rfl, rfl, rfl⟩

theorem update_timing (g : Game) (newtime : Option JSNum) :
    (g.update newtime).lastTime = newtime ∧
      (g.update newtime).dt = frameDt g newtime ∧
      (g.update newtime).paddle = g.paddle ∧
      (g.update newtime).paddle_xvel =
        (g.paddle.position.x - g.last_paddle_x) / frameDt g newtime := by
  cases h : g.ball_stuck
  · rw [update_launched g newtime h]
    obtain ⟨h1, h2, h3, h4⟩ := launchedStep_timing (tick g newtime) (frameDt g newtime)
    refine ⟨h1, h4, h2, ?_⟩
    show ((launchedStep (tick g newtime) (frameDt g newtime)).paddle.x
        - (launchedStep (tick g newtime) (frameDt g newtime)).last_paddle_x)
        / frameDt g newtime = _
    rw [h2, h3]
    rfl
  · rw [update_stuck g newtime h]
    exact ⟨rfl, rfl, rfl, rfl⟩

/-- C19, as stated, fails: in the first `update` after `loadLevel` on the 240x240 field
the divisor `dt` is zero and the paddle velocity estimate is `NaN`, also when the
argument-less `update()` of `beginPlay` has run before. -/
theorem first_update_divides_by_zero :
    (loadLevel samplePattern sampleFresh 2).lastTime = none ∧
      frameDt (loadLevel samplePattern sampleFresh 2) (some (JSNum.fin 5000)) = JSNum.fin 0 ∧
      ((loadLevel samplePattern sampleFresh 2).update (some (JSNum.fin 5000))).paddle_xvel =
        JSNum.nan ∧
      frameDt ((loadLevel samplePattern sampleFresh 2).update none) (some (JSNum.fin 5000)) =
        JSNum.fin 0 ∧
      (((loadLevel samplePattern sampleFresh 2).update none).update
        (some (JSNum.fin 5000))).paddle_xvel = JSNum.nan := by
  have hd1 : frameDt (loadLevel samplePattern sampleFresh 2) (some (JSNum.fin 5000)) =
      JSNum.fin 0 := frameDt_first _ 5000 rfl
  have hl : ((loadLevel samplePattern sampleFresh 2).update none).lastTime = none :=
    (update_timing _ none).1
  have hd2 : frameDt ((loadLevel samplePattern sampleFresh 2).update none)
      (some (JSNum.fin 5000)) = JSNum.fin 0 := frameDt_first _ 5000 hl
  have hpx : (loadLevel samplePattern sampleFresh 2).paddle.position.x = JSNum.fin 120 := by
    rw [(loadLevel_paddle_ball samplePattern sampleFresh 2 240 240 rfl).1]
    norm_num
  refine ⟨rfl, hd1, ?_, hd2, ?_⟩
  · rw [(update_timing _ _).2.2.2, hd1, hpx]
    rfl
  · rw [(update_timing _ _).2.2.2, hd2, (update_timing _ none).2.2.1, hpx]
    have hlp : ((loadLevel samplePattern sampleFresh 2).update none).last_paddle_x =
        JSNum.fin 120 := by
      rw [update_stuck _ _ (loadLevel_ball_stuck _ _ _)]
      exact hpx
    rw [hlp]
    norm_num

theorem frameDts_positive (ts : List ℚ) :
    ∀ (g : Game) (t : ℚ), g.lastTime = some (JSNum.fin t) → (t :: ts).Chain' (· < ·) →
      ∀ d ∈ frameDts g ts, ∃ q : ℚ, 0 < q ∧ d = JSNum.fin q := by
  induction ts with
  | nil =>
    intro g t _ _ d hd
    simp [frameDts] at hd
  | cons t1 rest ih =>
    intro g t hlast hchain d hd
    rw [List.chain'_cons] at hchain
    obtain ⟨hlt, hrest⟩ := hchain
    simp only [frameDts, List.mem_cons] at hd
    rcases hd with hd | hd
    · refine ⟨(t1 - t) / 1000, by linarith, ?_⟩
      rw [hd]
      simp [frameDt, nullish, toNumber, hlast]
    · exact ih (g.update (some (JSNum.fin t1))) t1 (update_timing g _).1 hrest d hd

/-- C19, amended: `dt` is zero in a call with no previous timestamp and in a call that
repeats the previous timestamp; in a call whose timestamp is later than the previous one
`dt` is their positive difference over 1000, so in a sequence of `update` calls with
increasing timestamps every `dt` after a first timestamp is positive, and the estimate is
then `(paddle x - last paddle x) / dt`, a finite number when both positions are. -/
theorem update_dt_positive_after_later_timestamp (g : Game) (t t1 : ℚ)
    (hlast : g.lastTime = some (JSNum.fin t)) (hlt : t < t1) :
    frameDt g (some (JSNum.fin t1)) = JSNum.fin ((t1 - t) / 1000) ∧
      0 < (t1 - t) / 1000 ∧
      (g.update (some (JSNum.fin t1))).dt = JSNum.fin ((t1 - t) / 1000) ∧
      (g.update (some (JSNum.fin t1))).lastTime = some (JSNum.fin t1) ∧
      (∀ x l : ℚ, g.paddle.position.x = JSNum.fin x → g.last_paddle_x = JSNum.fin l →
        (g.update (some (JSNum.fin t1))).paddle_xvel =
          JSNum.fin ((x - l) / ((t1 - t) / 1000))) ∧
      (∀ ts : List ℚ, (t :: ts).Chain' (· < ·) →
        ∀ d ∈ frameDts g ts, ∃ q : ℚ, 0 < q ∧ d = JSNum.fin q) ∧
      frameDt g (some (JSNum.fin t)) = JSNum.fin 0 ∧
      (∀ (g0 : Game) (t0 : ℚ), g0.lastTime = none →
        frameDt g0 (some (JSNum.fin t0)) = JSNum.fin 0) := by
  have hdt : frameDt g (some (JSNum.fin t1)) = JSNum.fin ((t1 - t) / 1000) := by
    simp [frameDt, nullish, toNumber, hlast]
  have hpos : 0 < (t1 - t) / 1000 := by linarith
  refine ⟨hdt, hpos, ?_, (update_timing g _).1, ?_, ?_, ?_, ?_⟩
  · rw [(update_timing g _).2.1, hdt]
  · intro x l hx hl
    rw [(update_timing g _).2.2.2, hdt, hx, hl]
    simp [ne_of_gt hpos]
  · intro ts hchain
    exact frameDts_positive ts g t hlast hchain
  · simp [frameDt, nullish, toNumber, hlast]
  · intro g0 t0 h0
    exact frameDt_first g0 t0 h0

theorem update_dt_positive_after_later_timestamp_witness :
    sampleGame.lastTime = some (JSNum.fin 0) ∧ (0 : ℚ) < 100 ∧
      frameDt sampleGame (some (JSNum.fin 100)) = JSNum.fin (1/10) ∧
      (sampleGame.update (some (JSNum.fin 100))).paddle_xvel = JSNum.fin 0 := by
  have hw := update_dt_positive_after_later_timestamp sampleGame 0 100 rfl (by norm_num)
  refine ⟨rfl, by norm_num, ?_, ?_⟩
  · rw [hw.1]
    norm_num
  · rw [hw.2.2.2.2.1 16 16 rfl rfl]
    norm_num

end Game

end Redbricks
